import Mathlib

/-!
# Verification of the Orange Pixipal overlay logic

Shallow embedding of the animation / timer / polling logic of the two
source variants of the Orange Pixipal desktop companion:

* `core.py`  — class `OptimizedStickmanOverlay` (plus `SystemMonitorThread`),
* `test.py`  — class `StickmanOverlay`.

Pure data (clip names, thresholds) is translated directly.  The mutable
object state of each overlay class becomes a Lean structure, and each
method becomes a state-transformer returning the new state together with
the clip names it passed to `set_animation` (the "selected" animations).
Wall-clock readings, cursor positions and OS query results are inputs of
each transformer.  Python floats are modelled as rationals; the claims
under study are threshold comparisons, which the rationals reproduce.
GUI-only effects (widget `move`, pixmap scaling, signal wiring, `print`)
have no bearing on the claims and are noted where elided.
-/

namespace OrangePixipal

/-! ## Animation clip constants (core.py lines 62-80, test.py lines 55-67) -/

def IDLE_CLIP_1 : String := "idle_animation_1.gif"
def IDLE_CLIP_2 : String := "idle_animation_2.gif"
def IDLE_CLIP_3 : String := "idle_animation_3.gif"
def IDLE_CLIP_4 : String := "idle_animation_4.gif"
def IDLE_CLIP_5 : String := "idle_animation_5.gif"
def WALK_LEFT : String := "walk_left.gif"
def WALK_RIGHT : String := "walk_right.gif"
def RUN_LEFT : String := "running_animation_left.gif"
def RUN_RIGHT : String := "running_animation_right.gif"
def RUN_IDLE_L : String := "running_idle_left.gif"
def RUN_IDLE_R : String := "running_idle_right.gif"
def RUN2SLOW_L : String := "running_to_slowing_left.gif"
def RUN2SLOW_R : String := "running_to_slowing_right.gif"
def CLICK_SINGLE : String := "single_tap.gif"
def CLICK_DOUBLE : String := "double_tap.gif"
def ENJOY : String := "enjoying_with_us.gif"
def WATCHING : String := "watching.gif"

def IDLE_CLIPS : List String :=
  [IDLE_CLIP_1, IDLE_CLIP_2, IDLE_CLIP_3, IDLE_CLIP_4, IDLE_CLIP_5]

def RUNNING_ANIMS : List String :=
  [RUN_LEFT, RUN_RIGHT, RUN_IDLE_L, RUN_IDLE_R, RUN2SLOW_L, RUN2SLOW_R]

/-- Every clip loaded by `load_animations` in both variants. -/
def ALL_CLIPS : List String :=
  IDLE_CLIPS ++ [WALK_LEFT, WALK_RIGHT, RUN_LEFT, RUN_RIGHT,
    RUN_IDLE_L, RUN_IDLE_R, RUN2SLOW_L, RUN2SLOW_R,
    CLICK_SINGLE, CLICK_DOUBLE, ENJOY, WATCHING]

/-! ## Numeric constants (core.py lines 82-105, test.py lines 69-73) -/

def WALK_VEL : ℚ := 50
def FAST_CURSOR_SPEED : ℚ := 400
def RUN_IDLE_MAX_TIME : ℚ := 5
def STICKMAN_FOLLOW_SPEED : ℚ := 3

/-- `int(40.9 * 1000)` and friends, as computed by CPython. -/
def IDLE_TIMEOUTS : List ℤ := [40900, 4266, 31500, 8833, 0]

def ENJOY_DURATION : ℤ := 766

namespace TestPy

/-- test.py line 71: the running threshold in the second variant. -/
def FAST_CURSOR_SPEED : ℚ := 720

/-- test.py line 73: two seconds between idle animations. -/
def IDLE_ANIMATION_DELAY : ℤ := 2000

end TestPy

/-! ## The movie dictionary and `set_animation`

Both variants keep a `dict` from clip names to loaded `QMovie` handles
together with `cur_name` / `current_movie`.  A `QMovie` is abstracted to
its validity flag and whether it has been started. `set_animation` is
textually identical in the two files except for pixmap scaling and which
clips get a `finished` signal wired — neither affects the modelled state,
so one definition serves both (core.py lines 451-485, test.py 252-288).
-/

structure Movie where
  valid : Bool
  running : Bool
deriving DecidableEq

structure MovieSys where
  movies : List (String × Movie)
  cur_name : Option String
  current_movie : Option String
deriving DecidableEq

/-- `self.movies[name]`, or `none` when `name not in self.movies`. -/
def lookupMovie (ms : MovieSys) (name : String) : Option Movie :=
  (ms.movies.find? (fun p => p.1 = name)).map (fun p => p.2)

/-- `movie.stop()` / `movie.start()` on the entry (entries) called `name`. -/
def setRunning (movies : List (String × Movie)) (name : String) (b : Bool) :
    List (String × Movie) :=
  movies.map (fun p => if p.1 = name then (p.1, { p.2 with running := b }) else p)

/-- `self.current_movie.stop()` when a movie is playing (core.py lines
461-467, test.py lines 262-268). -/
def stopCurrent (movies : List (String × Movie)) :
    Option String → List (String × Movie)
  | some cm => setRunning movies cm false
  | none => movies

/-- `set_animation` (core.py lines 451-485, test.py lines 252-288):
guard clauses, stop the current movie, install and start the new one.
The `finished.disconnect` / `finished.connect` signal wiring and the
pixmap-scaling cache touch no modelled state and are elided. -/
def set_animation (ms : MovieSys) (clip_name : String) : MovieSys :=
  if some clip_name = ms.cur_name then ms
  else
    match lookupMovie ms clip_name with
    | none => ms
    | some movie =>
      if movie.valid = false then ms
      else
        { movies := setRunning (stopCurrent ms.movies ms.current_movie)
            clip_name true,
          cur_name := some clip_name,
          current_movie := some clip_name }

/-- The invariant of claim C5: `current_movie` tracks `cur_name`, and any
started movie in the dictionary is the one `cur_name` names. -/
def singleActive (ms : MovieSys) : Prop :=
  ms.current_movie = ms.cur_name ∧
  ∀ p ∈ ms.movies, p.2.running = true → some p.1 = ms.cur_name

instance (ms : MovieSys) : Decidable (singleActive ms) := by
  unfold singleActive; infer_instance

/-! ## Inputs shared by both variants -/

/-- An integer screen coordinate pair, as returned by `pyautogui.position()`. -/
structure Pos where
  x : ℤ
  y : ℤ
deriving DecidableEq

/-- The ambient readings consumed by one `update_state` tick: the cursor
position, the wall clock `time.time()` (seconds) and the value returned by
`self.vel_timer.restart()` (milliseconds since the previous restart). -/
structure TickIn where
  cursor : Pos
  now : ℚ
  elapsed_ms : ℚ
deriving DecidableEq

/-! ## core.py — `OptimizedStickmanOverlay` state

Fields are the attributes set in `__init__` (core.py lines 203-253) that the
modelled methods read or write.  Timer objects become flags (`Option ℤ`
records an armed single-shot timeout).  `movies` / `cur_name` /
`current_movie` are grouped in the `anim : MovieSys` component.
`stickman_x` is the float x coordinate; the widget's own screen position
(only used for pixel placement) is not modelled. -/

structure CoreState where
  anim : MovieSys
  idle_sequence_index : Nat
  idle_timer : Option ℤ
  enjoy_timer : Option ℤ
  anim_timer : Bool
  click_timer : Bool
  click_timer_single : Option ℤ
  click_timer_double : Option ℤ
  monitor_running : Bool
  is_chrome_active : Bool
  chrome_state : String
  chrome_first_detected_time : Option ℚ
  chrome_fixed_position : Option (ℤ × ℤ)
  running_idle_start_time : Option ℚ
  current_direction : String
  movement_locked : Bool
  last_cursor_move_time : ℚ
  cursor_stationary : Bool
  cursor_speed_history : List ℚ
  last_cursor_pos : Option Pos
  stickman_x : ℚ
  fixed_y : ℤ
  last_click_time : ℚ
  last_mouse_state : Bool
  last_processed_click : ℚ
deriving DecidableEq

/-- `self.set_animation(clip_name)` on the overlay state. -/
def coreSetAnim (s : CoreState) (clip_name : String) : CoreState :=
  { s with anim := set_animation s.anim clip_name }

/-- `reset_idle_sequence` (core.py lines 619-622). -/
def reset_idle_sequence (s : CoreState) : CoreState :=
  { s with idle_sequence_index := 0, idle_timer := none }

/-- The timer value `schedule_next_idle` leaves armed: the pending
single-shot timeout, or the previous timer state when nothing is started
(core.py lines 639-648).  `max(0, i - 1)` on Python ints is truncated
subtraction on `Nat`. -/
def scheduled_idle_timer (s : CoreState) : Option ℤ :=
  if ¬(s.cursor_stationary = true) ∨ ¬(s.chrome_state = "none") then s.idle_timer
  else
    let timeout_index := s.idle_sequence_index - 1
    if timeout_index < IDLE_TIMEOUTS.length then
      let timeout := IDLE_TIMEOUTS.getD timeout_index 0
      if 0 < timeout then some timeout else s.idle_timer
    else s.idle_timer

/-- `schedule_next_idle` (core.py lines 639-648): only `idle_timer` moves. -/
def schedule_next_idle (s : CoreState) : CoreState :=
  { s with idle_timer := scheduled_idle_timer s }

/-- `play_next_idle` (core.py lines 624-637): fires on the idle timer.
Returns the new state and the clip passed to `set_animation`, if any. -/
def play_next_idle (s : CoreState) : CoreState × Option String :=
  if ¬(s.cursor_stationary = true) ∨ s.movement_locked = true ∨
      ¬(s.chrome_state = "none") then (s, none)
  else if s.idle_sequence_index < IDLE_CLIPS.length then
    let animation := IDLE_CLIPS.getD s.idle_sequence_index ""
    let s1 := coreSetAnim s animation
    let idx1 := s1.idle_sequence_index + 1
    let idx2 := if IDLE_CLIPS.length ≤ idx1 then IDLE_CLIPS.length - 1 else idx1
    (schedule_next_idle { s1 with idle_sequence_index := idx2 }, some animation)
  else (s, none)

/-- `start_idle_sequence` (core.py lines 650-654). -/
def start_idle_sequence (s : CoreState) : CoreState × Option String :=
  if s.cursor_stationary = true ∧ s.chrome_state = "none" ∧
      s.movement_locked = false then
    play_next_idle { s with idle_sequence_index := 0 }
  else (s, none)

/-- `return_to_idle_1` (core.py lines 656-660). -/
def return_to_idle_1 (s : CoreState) : CoreState × Option String :=
  if (lookupMovie (reset_idle_sequence s).anim (IDLE_CLIPS.getD 0 "")).isSome then
    (coreSetAnim (reset_idle_sequence s) (IDLE_CLIPS.getD 0 ""),
     some (IDLE_CLIPS.getD 0 ""))
  else (reset_idle_sequence s, none)

/-- `return_to_idle` (core.py lines 662-667).  The deferred
`QTimer.singleShot(1000, start_idle_sequence)` is a future event outside
the single tick being modelled. -/
def return_to_idle (s : CoreState) : CoreState × Option String :=
  if (lookupMovie (reset_idle_sequence s).anim (IDLE_CLIPS.getD 0 "")).isSome then
    (coreSetAnim (reset_idle_sequence s) (IDLE_CLIPS.getD 0 ""),
     some (IDLE_CLIPS.getD 0 ""))
  else (reset_idle_sequence s, none)

/-- The `chrome_state = "watching"` field update shared by
`start_watching` and the ENJOY case of `on_animation_finished`. -/
def watchingState (s : CoreState) : CoreState :=
  { s with chrome_state := "watching" }

/-- `start_watching` (core.py lines 680-684): fires on the enjoy timer. -/
def start_watching (s : CoreState) : CoreState × Option String :=
  if (lookupMovie (watchingState s).anim WATCHING).isSome then
    (coreSetAnim (watchingState s) WATCHING, some WATCHING)
  else (watchingState s, none)

/-- `on_animation_finished` (core.py lines 686-706). -/
def on_animation_finished (s : CoreState) (clip_name : String) :
    CoreState × Option String :=
  if clip_name = ENJOY then
    if (lookupMovie (watchingState s).anim WATCHING).isSome then
      (coreSetAnim (watchingState s) WATCHING, some WATCHING)
    else (watchingState s, none)
  else if clip_name = WATCHING then
    if s.is_chrome_active = true ∧ s.chrome_state = "watching" then
      if (lookupMovie s.anim WATCHING).isSome then
        (coreSetAnim s WATCHING, some WATCHING)
      else (s, none)
    else
      return_to_idle_1 { s with chrome_state := "none", chrome_fixed_position := none }
  else if clip_name = RUN2SLOW_L ∨ clip_name = RUN2SLOW_R then
    return_to_idle_1
      { s with movement_locked := false, running_idle_start_time := none }
  else (s, none)

/-- `force_stop_click_animation` (core.py lines 708-714). -/
def force_stop_click_animation (s : CoreState) (expected_clip : String) :
    CoreState × Option String :=
  if s.anim.cur_name = some expected_clip then return_to_idle_1 s else (s, none)

/-- The field updates of core.py lines 392-396 when the browser is first
detected, ending with `reset_idle_sequence`.  `wx, wy` are the widget
coordinates `self.x(), self.y()`. -/
def chromeDetectedState (s : CoreState) (now : ℚ) (wx wy : ℤ) : CoreState :=
  reset_idle_sequence
    { s with is_chrome_active := true,
             chrome_first_detected_time := some now,
             chrome_fixed_position := some (wx, wy),
             chrome_state := "enjoying" }

/-- The field updates of core.py lines 404-407 when the browser goes away. -/
def chromeGoneState (s : CoreState) : CoreState :=
  { s with is_chrome_active := false, chrome_state := "none",
           chrome_first_detected_time := none,
           chrome_fixed_position := none }

/-- `on_chrome_status_changed` (core.py lines 386-410), the slot receiving
the monitor thread's boolean. -/
def on_chrome_status_changed (s : CoreState) (is_active : Bool) (now : ℚ)
    (wx wy : ℤ) : CoreState × Option String :=
  if is_active = true ∧ s.is_chrome_active = false then
    if (lookupMovie (chromeDetectedState s now wx wy).anim ENJOY).isSome then
      ({ coreSetAnim (chromeDetectedState s now wx wy) ENJOY with
          enjoy_timer := some ENJOY_DURATION },
       some ENJOY)
    else (chromeDetectedState s now wx wy, none)
  else if is_active = false ∧ s.is_chrome_active = true then
    if (chromeGoneState s).anim.cur_name = some ENJOY ∨
        (chromeGoneState s).anim.cur_name = some WATCHING then
      return_to_idle_1 (chromeGoneState s)
    else (chromeGoneState s, none)
  else (s, none)

/-! ### core.py `update_state` (lines 487-615) -/

/-- core.py line 514: `abs(dx) > 1 or abs(dy) > 1`. -/
def coreCursorMoved (dx dy : ℤ) : Prop := 1 < |dx| ∨ 1 < |dy|

instance (dx dy : ℤ) : Decidable (coreCursorMoved dx dy) := by
  unfold coreCursorMoved; infer_instance

/-- core.py lines 548-556: update the 5-sample speed history and compute
the averaged cursor speed (0 when the cursor did not move).  Takes the raw
`vel_timer.restart()` value; `max(1, ...)` is applied here as on line 545. -/
def coreSpeedCalc (hist : List ℚ) (moved : Bool) (dx : ℤ)
    (elapsed_ms : ℚ) : List ℚ × ℚ :=
  if moved then
    let elapsed_s := max 1 elapsed_ms / 1000
    let cursor_speed := (|dx| : ℚ) / elapsed_s
    let h := hist ++ [cursor_speed]
    let h2 := if 5 < h.length then h.drop 1 else h
    (h2, h2.sum / (h2.length : ℚ))
  else (hist, 0)

/-- The cursor speed `update_state` measures on a tick: `avg_cursor_speed`
of core.py line 554 (or 0 when the cursor did not move or no previous
position exists). -/
def coreMeasuredSpeed (s : CoreState) (inp : TickIn) : ℚ :=
  match s.last_cursor_pos with
  | none => 0
  | some last =>
    let dx := inp.cursor.x - last.x
    let dy := inp.cursor.y - last.y
    (coreSpeedCalc s.cursor_speed_history
      (decide (coreCursorMoved dx dy)) dx inp.elapsed_ms).2

/-- core.py lines 516-529: cursor-stationarity bookkeeping at the top of
`update_state`.  Returns the updated state and any clip selected through
`start_idle_sequence`. -/
def coreStationaryPhase (s : CoreState) (dx dy : ℤ) (now : ℚ) :
    CoreState × Option String :=
  if coreCursorMoved dx dy then
    let sa := { s with last_cursor_move_time := now }
    if sa.cursor_stationary = true then
      let sb := { sa with cursor_stationary := false }
      if sb.anim.cur_name ∈ IDLE_CLIPS.map some ∧ sb.chrome_state = "none" then
        (reset_idle_sequence sb, none)
      else (sb, none)
    else (sa, none)
  else
    if 1 < now - s.last_cursor_move_time then
      if s.cursor_stationary = false then
        let sb := { s with cursor_stationary := true }
        if sb.chrome_state = "none" ∧ sb.movement_locked = false ∧
            sb.anim.cur_name = some (IDLE_CLIPS.getD 0 "") then
          start_idle_sequence sb
        else (sb, none)
      else (s, none)
    else (s, none)

/-- core.py lines 561-577: direction update, direction-change unlock, and
the smoothed stickman movement, all guarded by `distance_to_cursor > 20`.
(The widget `self.move` of lines 580-586 only repaints; not modelled.) -/
def coreMovePhase (s : CoreState) (cx : ℤ) (elapsed_s distance : ℚ) :
    CoreState :=
  if 20 < distance then
    let new_direction := if s.stickman_x < (cx : ℚ) then "right" else "left"
    let sa :=
      if ¬(new_direction = s.current_direction) ∧
          s.anim.cur_name ∈ RUNNING_ANIMS.map some then
        { s with movement_locked := false, running_idle_start_time := none }
      else s
    let sb := { sa with current_direction := new_direction }
    let move_amount := min (distance * STICKMAN_FOLLOW_SPEED * elapsed_s) distance
    if sb.stickman_x < (cx : ℚ) then
      { sb with stickman_x := sb.stickman_x + move_amount }
    else
      { sb with stickman_x := sb.stickman_x - move_amount }
  else s

/-- `"right" if ... else "left"` clip choices shared by the two variants
(core.py lines 590, 597, 607; test.py lines 460, 469, 482). -/
def runAnimFor (dir : String) : String :=
  if dir = "right" then RUN_RIGHT else RUN_LEFT

def walkAnimFor (dir : String) : String :=
  if dir = "right" then WALK_RIGHT else WALK_LEFT

def slowAnimFor (dir : String) : String :=
  if dir = "right" then RUN2SLOW_R else RUN2SLOW_L

/-- core.py lines 589-610: the animation-selection chain at the end of
`update_state`.  `avg` is `avg_cursor_speed`, `distance` the pre-movement
`distance_to_cursor`.  The run branch's deferred
`QTimer.singleShot(800, start_running_idle)` is a future event outside the
tick. -/
def coreAnimLogic (s : CoreState) (dx dy : ℤ) (avg distance now : ℚ) :
    CoreState × Option String :=
  if FAST_CURSOR_SPEED ≤ avg ∧ coreCursorMoved dx dy ∧ 100 < distance then
    if (lookupMovie s.anim (runAnimFor s.current_direction)).isSome ∧
        s.movement_locked = false then
      ({ coreSetAnim s (runAnimFor s.current_direction) with
          movement_locked := false },
       some (runAnimFor s.current_direction))
    else (s, none)
  else if coreCursorMoved dx dy ∧ 20 < distance then
    if (lookupMovie s.anim (walkAnimFor s.current_direction)).isSome ∧
        s.movement_locked = false then
      (coreSetAnim s (walkAnimFor s.current_direction),
       some (walkAnimFor s.current_direction))
    else (s, none)
  else if distance ≤ 30 then
    if s.anim.cur_name ∈ [some RUN_LEFT, some RUN_RIGHT, some WALK_LEFT,
        some WALK_RIGHT] then
      return_to_idle s
    else if s.anim.cur_name ∈ [some RUN_IDLE_L, some RUN_IDLE_R] then
      match s.running_idle_start_time with
      | some t0 =>
        if RUN_IDLE_MAX_TIME < now - t0 then
          if (lookupMovie s.anim (slowAnimFor s.current_direction)).isSome then
            (coreSetAnim { s with movement_locked := true }
              (slowAnimFor s.current_direction),
             some (slowAnimFor s.current_direction))
          else (s, none)
        else (s, none)
      | none => (s, none)
    else (s, none)
  else (s, none)

/-- core.py lines 545-610 as one step: install the updated speed
history, move the stickman (`distance_to_cursor` is measured before the
movement, line 559, and reused by the animation chain, lines 589-610),
then run the animation chain.  `avg` is the tick's averaged speed. -/
def coreMoveAndAnimate (s1 : CoreState) (hist1 : List ℚ) (dx dy : ℤ)
    (avg : ℚ) (inp : TickIn) : CoreState × Option String :=
  coreAnimLogic
    (coreMovePhase { s1 with cursor_speed_history := hist1 } inp.cursor.x
      (max 1 inp.elapsed_ms / 1000) (|(inp.cursor.x : ℚ) - s1.stickman_x|))
    dx dy avg (|(inp.cursor.x : ℚ) - s1.stickman_x|) inp.now

/-- `update_state` (core.py lines 487-615), one timer tick.  Returns the
new state and the clips passed to `set_animation`, in call order.  The
fps counter (lines 491-496) and widget placement (lines 580-586) touch no
modelled state.  The speed calculation reads `s.cursor_speed_history`,
which the stationary phase never modifies. -/
def coreUpdateState (s : CoreState) (inp : TickIn) : CoreState × List String :=
  match s.last_cursor_pos with
  | none => ({ s with last_cursor_pos := some inp.cursor }, [])
  | some last =>
    let dx := inp.cursor.x - last.x
    let dy := inp.cursor.y - last.y
    let sp := coreStationaryPhase s dx dy inp.now
    -- lines 532-536: Chrome mode pins the widget and ends the tick
    if (sp.1.chrome_state = "enjoying" ∨ sp.1.chrome_state = "watching") ∧
        sp.1.chrome_fixed_position.isSome then
      ({ sp.1 with last_cursor_pos := some inp.cursor }, sp.2.toList)
    -- lines 539-542: click/browser clips and locked movement end the tick
    else if sp.1.anim.cur_name ∈ [some CLICK_SINGLE, some CLICK_DOUBLE,
        some ENJOY, some WATCHING] ∨ sp.1.movement_locked = true then
      ({ sp.1 with last_cursor_pos := some inp.cursor }, sp.2.toList)
    else
      let hv := coreSpeedCalc s.cursor_speed_history
        (decide (coreCursorMoved dx dy)) dx inp.elapsed_ms
      let al := coreMoveAndAnimate sp.1 hv.1 dx dy hv.2 inp
      ({ al.1 with last_cursor_pos := some inp.cursor },
       sp.2.toList ++ al.2.toList)

/-- core.py lines 498-505: `update_state` returns at once when the cursor
cannot be read (`pyautogui.position()` raising). -/
def coreUpdateTick (s : CoreState) (cursor_read : Option Pos)
    (now elapsed_ms : ℚ) : CoreState × List String :=
  match cursor_read with
  | none => (s, [])
  | some c => coreUpdateState s ⟨c, now, elapsed_ms⟩

/-! ### core.py click detection, cleanup, exit -/

def double_click_threshold : ℚ := 2/5

def click_debounce_time : ℚ := 1/10

def CLICK_SINGLE_DURATION : ℤ := 766

def CLICK_DOUBLE_DURATION : ℤ := 1133

/-- `detect_click` (core.py lines 412-449).  `mouse` is the outcome of
`win32api.GetKeyState(VK_LBUTTON) < 0`; `.error` models that call
raising, which the enclosing `except` swallows. -/
def detect_click (s : CoreState) (mouse : Except Unit Bool) (now : ℚ) :
    CoreState × Option String :=
  if now - s.last_processed_click < click_debounce_time then (s, none)
  else
    match mouse with
    | .error _ => (s, none)
    | .ok current_mouse_state =>
      let body : CoreState × Option String :=
        if current_mouse_state = true ∧ s.last_mouse_state = false then
          if s.movement_locked = false ∧ s.chrome_state = "none" ∧
              ¬(s.anim.cur_name ∈ [some ENJOY, some WATCHING,
                some RUN2SLOW_L, some RUN2SLOW_R]) then
            let sc :=
              if now - s.last_click_time < double_click_threshold then
                if (lookupMovie s.anim CLICK_DOUBLE).isSome then
                  ({ coreSetAnim (reset_idle_sequence s) CLICK_DOUBLE with
                      click_timer_double := some CLICK_DOUBLE_DURATION },
                   some CLICK_DOUBLE)
                else (s, none)
              else
                if (lookupMovie s.anim CLICK_SINGLE).isSome then
                  ({ coreSetAnim (reset_idle_sequence s) CLICK_SINGLE with
                      click_timer_single := some CLICK_SINGLE_DURATION },
                   some CLICK_SINGLE)
                else (s, none)
            ({ sc.1 with last_click_time := now, last_processed_click := now },
             sc.2)
          else (s, none)
        else (s, none)
      ({ body.1 with last_mouse_state := current_mouse_state }, body.2)

/-- `cleanup` (core.py lines 732-755): stop the monitor thread, every
timer, the current movie and every loaded movie. -/
def cleanup (s : CoreState) : CoreState :=
  { s with monitor_running := false,
           anim_timer := false,
           idle_timer := none,
           enjoy_timer := none,
           click_timer := false,
           click_timer_single := none,
           click_timer_double := none,
           anim := { s.anim with
             movies := s.anim.movies.map
               (fun p => (p.1, { p.2 with running := false })) } }

/-- `safe_exit` (core.py lines 757-764): cleanup, then
`QApplication.quit()` — the returned flag records that the application
quit was requested. -/
def safe_exit (s : CoreState) : CoreState × Bool := (cleanup s, true)

/-- `show_debug_info` (core.py lines 378-384): prints statistics only;
no state change and no quit. -/
def show_debug_info (s : CoreState) : CoreState × Bool := (s, false)

/-- The actions wired to keyboard shortcuts. -/
inductive ShortcutAction where
  | exitApp
  | debugInfo
deriving DecidableEq

/-- Dispatch a shortcut activation on the overlay state; the flag reports
whether the application quit was requested. -/
def runShortcut : ShortcutAction → CoreState → CoreState × Bool
  | .exitApp, s => safe_exit s
  | .debugInfo, s => show_debug_info s

/-- `setup_shortcuts` (core.py lines 365-376): Escape → `safe_exit`,
F12 → `show_debug_info`. -/
def core_shortcut_table : List (String × ShortcutAction) :=
  [("Escape", .exitApp), ("F12", .debugInfo)]

/-- test.py `setup_shortcuts` (lines 207-213): Escape → `safe_exit` only. -/
def test_shortcut_table : List (String × ShortcutAction) :=
  [("Escape", .exitApp)]

/-! ### core.py `setup_position` (lines 716-730) -/

/-- The environment read during position setup: `pyautogui.size()` and
`pyautogui.position()`.  `none` models any of those calls raising. -/
structure ScreenEnv where
  width : ℤ
  height : ℤ
  cursor : Pos
deriving DecidableEq

/-- The three fields `setup_position` writes. -/
structure PosSetup where
  fixed_y : ℤ
  last_cursor_pos : Option Pos
  stickman_x : ℚ
deriving DecidableEq

/-- `setup_position` (core.py lines 716-730): on success place the
overlay `SIZE_RUN.height() + 50` pixels above the bottom at the cursor;
on any exception fall back to `fixed_y = 100` and a stand-in position
object with `x = 500` (and `stickman_x = 500.0`). -/
def setup_position (env : Option ScreenEnv) : PosSetup :=
  match env with
  | some e =>
    { fixed_y := e.height - 200 - 50,
      last_cursor_pos := some e.cursor,
      stickman_x := (e.cursor.x : ℚ) }
  | none =>
    { fixed_y := 100,
      last_cursor_pos := some ⟨500, 100⟩,
      stickman_x := 500 }

/-! ## test.py — `StickmanOverlay` state and methods -/

namespace TestPy

open OrangePixipal

/-- test.py `__init__` attributes (lines 100-128) read or written by the
modelled methods.  `stickman_pos` is the x coordinate of the lagging
stickman position object (its y component is only ever copied, never
read by the logic; `setup_position` always assigns the object before any
timer runs). -/
structure TestState where
  anim : MovieSys
  idle_sequence_index : Nat
  idle_1_play_count : Nat
  idle_timer : Option ℤ
  anim_timer : Bool
  browser_timer : Bool
  is_chrome_active : Bool
  chrome_state : String
  running_idle_start_time : Option ℚ
  current_direction : String
  last_cursor_move_time : ℚ
  cursor_stationary : Bool
  last_cursor_pos : Option Pos
  stickman_pos : ℚ
  fixed_y : ℤ
deriving DecidableEq

/-- `self.set_animation(clip_name)` on the test.py overlay state. -/
def setAnim (s : TestState) (clip_name : String) : TestState :=
  { s with anim := set_animation s.anim clip_name }

/-- `reset_idle_sequence` (test.py lines 215-219). -/
def reset_idle_sequence (s : TestState) : TestState :=
  { s with idle_sequence_index := 0, idle_1_play_count := 0, idle_timer := none }

/-- The branch body of `play_next_idle` (test.py lines 226-246): idle_1
twice, then idle_2 through idle_5, then loop on idle_5.  `set_animation`
never touches `idle_sequence_index` or `idle_1_play_count`, so the index
bump after the clip lookup reads the pre-call values. -/
def play_next_idle_step (s : TestState) : TestState × Option String :=
  if s.idle_sequence_index = 0 then
    if s.idle_1_play_count < 2 then
      ({ setAnim s (IDLE_CLIPS.getD 0 "") with
          idle_1_play_count := s.idle_1_play_count + 1,
          idle_sequence_index :=
            if 2 ≤ s.idle_1_play_count + 1 then 1 else s.idle_sequence_index },
       some (IDLE_CLIPS.getD 0 ""))
    else ({ s with idle_sequence_index := 1 }, none)
  else if s.idle_sequence_index < IDLE_CLIPS.length then
    (if (lookupMovie s.anim (IDLE_CLIPS.getD s.idle_sequence_index "")).isSome then
      { setAnim s (IDLE_CLIPS.getD s.idle_sequence_index "") with
          idle_sequence_index := s.idle_sequence_index + 1 }
     else { s with idle_sequence_index := s.idle_sequence_index + 1 },
     if (lookupMovie s.anim (IDLE_CLIPS.getD s.idle_sequence_index "")).isSome then
      some (IDLE_CLIPS.getD s.idle_sequence_index "") else none)
  else
    if (lookupMovie s.anim (IDLE_CLIPS.getD 4 "")).isSome then
      (setAnim { s with idle_sequence_index := 4 } (IDLE_CLIPS.getD 4 ""),
       some (IDLE_CLIPS.getD 4 ""))
    else ({ s with idle_sequence_index := 4 }, none)

/-- `play_next_idle` (test.py lines 221-250): guard on a stationary
cursor, run the branch body, then re-arm the idle timer (the branch body
never changes `cursor_stationary`). -/
def play_next_idle (s : TestState) : TestState × Option String :=
  if ¬(s.cursor_stationary = true) then (s, none)
  else if (play_next_idle_step s).1.cursor_stationary = true then
    ({ (play_next_idle_step s).1 with idle_timer := some IDLE_ANIMATION_DELAY },
     (play_next_idle_step s).2)
  else play_next_idle_step s

/-- `return_to_idle_1` (test.py lines 318-322). -/
def return_to_idle_1 (s : TestState) : TestState × Option String :=
  if (lookupMovie (reset_idle_sequence s).anim (IDLE_CLIPS.getD 0 "")).isSome then
    (setAnim (reset_idle_sequence s) (IDLE_CLIPS.getD 0 ""),
     some (IDLE_CLIPS.getD 0 ""))
  else (reset_idle_sequence s, none)

/-- The `chrome_state = "watching"` field update of test.py line 295. -/
def watchingState (s : TestState) : TestState :=
  { s with chrome_state := "watching" }

/-- `on_animation_finished` (test.py lines 290-316). -/
def on_animation_finished (s : TestState) (clip_name : String) :
    TestState × Option String :=
  if clip_name = ENJOY then
    if (lookupMovie (watchingState s).anim WATCHING).isSome then
      (setAnim (watchingState s) WATCHING, some WATCHING)
    else (watchingState s, none)
  else if clip_name = WATCHING then
    if s.is_chrome_active = true ∧ (lookupMovie s.anim WATCHING).isSome then
      (setAnim s WATCHING, some WATCHING)
    else
      return_to_idle_1 { s with chrome_state := "none" }
  else if clip_name = RUN2SLOW_L ∨ clip_name = RUN2SLOW_R then
    return_to_idle_1 s
  else if clip_name = CLICK_SINGLE ∨ clip_name = CLICK_DOUBLE then
    return_to_idle_1 s
  else (s, none)

/-- The field updates of test.py lines 358-359 when the browser is first
detected. -/
def chromeOnState (s : TestState) : TestState :=
  { s with is_chrome_active := true, chrome_state := "enjoying" }

/-- The field updates of test.py lines 369-370 when the browser goes away. -/
def chromeOffState (s : TestState) : TestState :=
  { s with is_chrome_active := false, chrome_state := "none" }

/-- The body of `check_chrome_active` (test.py lines 354-374) on a
successful `is_chrome_active_window()` reading. -/
def check_chrome_active_ok (s : TestState) (active : Bool) :
    TestState × Option String :=
  if active = true ∧ s.is_chrome_active = false then
    if ¬((chromeOnState s).anim.cur_name ∈ [some ENJOY, some WATCHING,
          some CLICK_SINGLE, some CLICK_DOUBLE]) ∧
        (lookupMovie (chromeOnState s).anim ENJOY).isSome then
      (setAnim (reset_idle_sequence (chromeOnState s)) ENJOY, some ENJOY)
    else (chromeOnState s, none)
  else if active = false ∧ s.is_chrome_active = true then
    if (chromeOffState s).anim.cur_name = some ENJOY ∨
        (chromeOffState s).anim.cur_name = some WATCHING then
      return_to_idle_1 (chromeOffState s)
    else (chromeOffState s, none)
  else (s, none)

/-- `check_chrome_active` (test.py lines 351-377), fired by the browser
timer every two seconds.  `chrome_active` is the fresh
`is_chrome_active_window()` result; `.error` models the body raising,
which the enclosing `except` swallows. -/
def check_chrome_active (s : TestState) (chrome_active : Except Unit Bool) :
    TestState × Option String :=
  match chrome_active with
  | .error _ => (s, none)
  | .ok active => check_chrome_active_ok s active

/-- test.py line 396: any change of either coordinate counts as movement. -/
def cursorMoved (dx dy : ℤ) : Prop := ¬(dx = 0) ∨ ¬(dy = 0)

instance (dx dy : ℤ) : Decidable (cursorMoved dx dy) := by
  unfold cursorMoved; infer_instance

/-- test.py lines 424-427: instantaneous cursor speed of a tick (0 when
no previous position exists). -/
def measuredSpeed (s : TestState) (inp : TickIn) : ℚ :=
  match s.last_cursor_pos with
  | none => 0
  | some last =>
    (|inp.cursor.x - last.x| : ℚ) / (max 1 inp.elapsed_ms / 1000)

/-- test.py lines 399-412: stationarity bookkeeping at the top of
`update_state`. -/
def stationaryPhase (s : TestState) (dx dy : ℤ) (now : ℚ) : TestState :=
  if cursorMoved dx dy then
    let sa := { s with last_cursor_move_time := now, cursor_stationary := false }
    if sa.anim.cur_name ∈ IDLE_CLIPS.map some ∧ sa.chrome_state = "none" then
      reset_idle_sequence sa
    else sa
  else
    if 1 < now - s.last_cursor_move_time then
      if s.cursor_stationary = false then
        let sb := { s with cursor_stationary := true }
        if sb.chrome_state = "none" ∧
            sb.anim.cur_name = some (IDLE_CLIPS.getD 0 "") then
          { sb with idle_timer := some IDLE_ANIMATION_DELAY }
        else sb
      else s
    else s

/-- test.py lines 430-448: lagging stickman movement and direction
update, guarded by `distance_to_cursor > 10`.  (The widget `self.move`
of lines 451-455 only repaints; not modelled.) -/
def movePhase (s : TestState) (cx : ℤ) (elapsed_ms distance : ℚ) :
    TestState :=
  if 10 < distance then
    let move_speed := min (distance * (1/10)) 200
    if s.stickman_pos < (cx : ℚ) then
      { s with stickman_pos := s.stickman_pos + move_speed * (elapsed_ms / 1000),
               current_direction := "right" }
    else
      { s with stickman_pos := s.stickman_pos - move_speed * (elapsed_ms / 1000),
               current_direction := "left" }
  else s

/-- test.py lines 457-485: the animation-selection chain.  `speed` is the
instantaneous `cursor_speed`, `distance` the pre-movement
`distance_to_cursor`.  The run branch's deferred
`QTimer.singleShot(500, start_running_idle)` is a future event outside
the tick. -/
def animLogic (s : TestState) (dx dy : ℤ) (speed distance now : ℚ) :
    TestState × Option String :=
  if TestPy.FAST_CURSOR_SPEED ≤ speed ∧ cursorMoved dx dy then
    if (lookupMovie s.anim (runAnimFor s.current_direction)).isSome ∧
        ¬(s.anim.cur_name = some (runAnimFor s.current_direction)) then
      (setAnim s (runAnimFor s.current_direction),
       some (runAnimFor s.current_direction))
    else (s, none)
  else if cursorMoved dx dy ∧ 50 < distance then
    if 10 < distance then
      if (lookupMovie s.anim (walkAnimFor s.current_direction)).isSome ∧
          ¬(s.anim.cur_name ∈ RUNNING_ANIMS.map some) then
        (setAnim s (walkAnimFor s.current_direction),
         some (walkAnimFor s.current_direction))
      else (s, none)
    else (s, none)
  else if ¬cursorMoved dx dy ∨ distance ≤ 10 then
    if s.anim.cur_name ∈ [some RUN_LEFT, some RUN_RIGHT, some WALK_LEFT,
        some WALK_RIGHT] then
      return_to_idle_1 s
    else if s.anim.cur_name ∈ [some RUN_IDLE_L, some RUN_IDLE_R] then
      match s.running_idle_start_time with
      | some t0 =>
        if RUN_IDLE_MAX_TIME < now - t0 then
          ({ (if (lookupMovie s.anim (slowAnimFor s.current_direction)).isSome
              then setAnim s (slowAnimFor s.current_direction) else s) with
             running_idle_start_time := none },
           if (lookupMovie s.anim (slowAnimFor s.current_direction)).isSome
           then some (slowAnimFor s.current_direction) else none)
        else (s, none)
      | none => (s, none)
    else (s, none)
  else (s, none)

/-- test.py lines 430-485 as one step: move the lagging stickman
(`distance_to_cursor` is measured before the movement, line 432, and
reused by the animation chain) and run the animation chain.  `speed` is
the tick's instantaneous cursor speed. -/
def moveAndAnimate (s1 : TestState) (dx dy : ℤ) (speed : ℚ)
    (inp : TickIn) : TestState × Option String :=
  animLogic
    (movePhase s1 inp.cursor.x (max 1 inp.elapsed_ms)
      (|(inp.cursor.x : ℚ) - s1.stickman_pos|))
    dx dy speed (|(inp.cursor.x : ℚ) - s1.stickman_pos|) inp.now

/-- `update_state` (test.py lines 379-490), one timer tick.  Returns the
new state and the clips passed to `set_animation`, in call order. -/
def updateState (s : TestState) (inp : TickIn) : TestState × List String :=
  match s.last_cursor_pos with
  | none => ({ s with last_cursor_pos := some inp.cursor }, [])
  | some last =>
    let dx := inp.cursor.x - last.x
    let dy := inp.cursor.y - last.y
    let s1 := stationaryPhase s dx dy inp.now
    -- lines 415-417: Chrome animations end the tick
    if s1.chrome_state = "enjoying" ∨ s1.chrome_state = "watching" then
      ({ s1 with last_cursor_pos := some inp.cursor }, [])
    -- lines 420-422: click/browser clips end the tick
    else if s1.anim.cur_name ∈ [some CLICK_SINGLE, some CLICK_DOUBLE,
        some ENJOY, some WATCHING] then
      ({ s1 with last_cursor_pos := some inp.cursor }, [])
    else
      let al := moveAndAnimate s1 dx dy
        ((|dx| : ℚ) / (max 1 inp.elapsed_ms / 1000)) inp
      ({ al.1 with last_cursor_pos := some inp.cursor }, al.2.toList)

/-- test.py `setup_position` (lines 178-192): on any exception fall back
to `fixed_y = 100` and stand-in position objects with `x = 100`. -/
def setup_position (env : Option ScreenEnv) : PosSetup :=
  match env with
  | some e =>
    { fixed_y := e.height - 200 - 50,
      last_cursor_pos := some e.cursor,
      stickman_x := (e.cursor.x : ℚ) }
  | none =>
    { fixed_y := 100,
      last_cursor_pos := some ⟨100, 100⟩,
      stickman_x := 100 }

end TestPy

/-! ## core.py — `SystemMonitorThread` (lines 116-173) -/

/-- One iteration of `SystemMonitorThread.run`: given the last emitted
state and the outcome of `is_chrome_active_window()` (`.error` = the body
raised, caught by the loop's `except`), return the new `last_chrome_state`
and the emission on `chrome_status_changed`, if any. -/
def monitorStep (last_chrome_state : Bool) (check : Except Unit Bool) :
    Bool × Option Bool :=
  match check with
  | .error _ => (last_chrome_state, none)
  | .ok current_chrome_state =>
    if ¬(current_chrome_state = last_chrome_state) then
      (current_chrome_state, some current_chrome_state)
    else (last_chrome_state, none)

/-- The whole monitor loop over a finite schedule of check outcomes,
starting from `last_chrome_state`; returns the emitted booleans in order.
`run` starts with `last_chrome_state = False` (core.py line 125). -/
def monitorRun (last_chrome_state : Bool) :
    List (Except Unit Bool) → List Bool
  | [] => []
  | c :: cs =>
    let st := monitorStep last_chrome_state c
    st.2.toList ++ monitorRun st.1 cs

/-! ## `safe_movie` (core.py lines 177-200, test.py lines 82-98) -/

/-- What the loader can observe about a GIF file: `path.exists()`,
whether constructing/validating the `QMovie` raises, and `mv.isValid()`. -/
structure GifFile where
  exists_on_disk : Bool
  raises : Bool
  is_valid : Bool
deriving DecidableEq

/-- `safe_movie`: `None` for a missing file, a raised exception, or an
invalid movie; otherwise a fresh (not yet started) movie handle.  The
cache-mode and frame-preload calls configure the `QMovie` only. -/
def safe_movie (f : GifFile) : Option Movie :=
  if f.exists_on_disk = false then none
  else if f.raises = true then none
  else if f.is_valid = false then none
  else some { valid := true, running := false }

/-! ## Concrete states for witnesses and counterexamples -/

/-- The dictionary `load_animations` builds when every asset loads:
all 17 clips valid and not yet started. -/
def loadedMovies : List (String × Movie) :=
  ALL_CLIPS.map (fun n => (n, { valid := true, running := false }))

/-- A movie system right after `__init__` ran `set_animation(IDLE_CLIPS[0])`
would have `cur_name = idle_animation_1`; this fixes it directly for use in
concrete evaluations. -/
def demoMovieSys : MovieSys :=
  { movies := loadedMovies,
    cur_name := some IDLE_CLIP_1,
    current_movie := some IDLE_CLIP_1 }

/-- A movie system as `load_animations` leaves it, before any animation
has been requested. -/
def freshMovieSys : MovieSys :=
  { movies := loadedMovies, cur_name := none, current_movie := none }

/-- The overlay state right after a successful `__init__` (core.py lines
203-272): counters zeroed, flags cleared, timers armed, monitor started,
and `set_animation(IDLE_CLIPS[0])` run on the freshly loaded dictionary.
`env` is the screen/cursor reading of `setup_position`; `t0` the
`time.time()` stored in `last_cursor_move_time`. -/
def coreInitState (env : Option ScreenEnv) (t0 : ℚ) : CoreState :=
  let ps := setup_position env
  { anim := set_animation freshMovieSys (IDLE_CLIPS.getD 0 ""),
    idle_sequence_index := 0,
    idle_timer := none,
    enjoy_timer := none,
    anim_timer := true,
    click_timer := true,
    click_timer_single := none,
    click_timer_double := none,
    monitor_running := true,
    is_chrome_active := false,
    chrome_state := "none",
    chrome_first_detected_time := none,
    chrome_fixed_position := none,
    running_idle_start_time := none,
    current_direction := "right",
    movement_locked := false,
    last_cursor_move_time := t0,
    cursor_stationary := false,
    cursor_speed_history := [],
    last_cursor_pos := ps.last_cursor_pos,
    stickman_x := ps.stickman_x,
    fixed_y := ps.fixed_y,
    last_click_time := 0,
    last_mouse_state := false,
    last_processed_click := 0 }

/-! ## Idle-timer firing sequences (for claim C4) -/

/-- The state after `n` firings of the core.py idle timer. -/
def coreIdleIter (s : CoreState) : Nat → CoreState
  | 0 => s
  | n + 1 => (play_next_idle (coreIdleIter s n)).1

/-- The clip selected by the `n`-th firing (0-based) of the core.py idle
timer. -/
def coreIdleSel (s : CoreState) (n : Nat) : Option String :=
  (play_next_idle (coreIdleIter s n)).2

namespace TestPy

/-- The state after `n` firings of the test.py idle timer. -/
def idleIter (s : TestState) : Nat → TestState
  | 0 => s
  | n + 1 => (play_next_idle (idleIter s n)).1

/-- The clip selected by the `n`-th firing (0-based) of the test.py idle
timer. -/
def idleSel (s : TestState) (n : Nat) : Option String :=
  (play_next_idle (idleIter s n)).2

end TestPy

/-- Every idle clip is a key of the movie dictionary. -/
def idleClipsLoaded (ms : MovieSys) : Prop :=
  ∀ c ∈ IDLE_CLIPS, (lookupMovie ms c).isSome = true

instance (ms : MovieSys) : Decidable (idleClipsLoaded ms) := by
  unfold idleClipsLoaded; infer_instance

/-- Reachable configurations of the test.py idle sequence after `n`
firings from its reset state (index 0, play count 0, cursor stationary):
idle_1 plays at firings 0 and 1, the index then walks 1,2,3,4 and finally
alternates between 4 and 5 while idle_5 repeats. -/
def TestIdleInv (s : TestPy.TestState) (n : Nat) : Prop :=
  s.cursor_stationary = true ∧ idleClipsLoaded s.anim ∧
  ((n = 0 ∧ s.idle_sequence_index = 0 ∧ s.idle_1_play_count = 0) ∨
   (n = 1 ∧ s.idle_sequence_index = 0 ∧ s.idle_1_play_count = 1) ∨
   (2 ≤ n ∧ n ≤ 5 ∧ s.idle_sequence_index = n - 1) ∨
   (6 ≤ n ∧ (s.idle_sequence_index = 4 ∨ s.idle_sequence_index = 5)))

/-- A test.py overlay sitting at the start of its idle sequence with the
cursor stationary: the state from which the idle timer first fires. -/
def cexTestIdleState : TestPy.TestState :=
  { anim := demoMovieSys,
    idle_sequence_index := 0,
    idle_1_play_count := 0,
    idle_timer := some TestPy.IDLE_ANIMATION_DELAY,
    anim_timer := true,
    browser_timer := true,
    is_chrome_active := false,
    chrome_state := "none",
    running_idle_start_time := none,
    current_direction := "right",
    last_cursor_move_time := 0,
    cursor_stationary := true,
    last_cursor_pos := some ⟨500, 100⟩,
    stickman_pos := 500,
    fixed_y := 100 }

/-- A test.py overlay in the middle of a single-tap click animation, the
browser not yet detected as active. -/
def cexTestClickState : TestPy.TestState :=
  { anim := { movies := loadedMovies,
              cur_name := some CLICK_SINGLE,
              current_movie := some CLICK_SINGLE },
    idle_sequence_index := 0,
    idle_1_play_count := 0,
    idle_timer := none,
    anim_timer := true,
    browser_timer := true,
    is_chrome_active := false,
    chrome_state := "none",
    running_idle_start_time := none,
    current_direction := "right",
    last_cursor_move_time := 0,
    cursor_stationary := false,
    last_cursor_pos := some ⟨500, 100⟩,
    stickman_pos := 500,
    fixed_y := 100 }

/-- A core.py overlay idling with the stickman 60 px behind a slowly
moving cursor. -/
def cexCoreWalkState : CoreState :=
  { anim := demoMovieSys,
    idle_sequence_index := 0,
    idle_timer := none,
    enjoy_timer := none,
    anim_timer := true,
    click_timer := true,
    click_timer_single := none,
    click_timer_double := none,
    monitor_running := true,
    is_chrome_active := false,
    chrome_state := "none",
    chrome_first_detected_time := none,
    chrome_fixed_position := none,
    running_idle_start_time := none,
    current_direction := "right",
    movement_locked := false,
    last_cursor_move_time := 0,
    cursor_stationary := false,
    cursor_speed_history := [],
    last_cursor_pos := some ⟨500, 0⟩,
    stickman_x := 440,
    fixed_y := 100,
    last_click_time := 0,
    last_mouse_state := false,
    last_processed_click := 0 }

/-- The tick observation driving `cexCoreWalkState`: the cursor moved 5 px
in 50 ms — a measured speed of 100 px/s, far below `FAST_CURSOR_SPEED`. -/
def cexSlowTick : TickIn := { cursor := ⟨505, 0⟩, now := 10, elapsed_ms := 50 }

/-- Every clip of `load_animations` is a key of the dictionary. -/
def allClipsLoaded (ms : MovieSys) : Prop :=
  ∀ n ∈ ALL_CLIPS, (lookupMovie ms n).isSome = true

instance (ms : MovieSys) : Decidable (allClipsLoaded ms) := by
  unfold allClipsLoaded; infer_instance

/-- A core.py overlay idling 80 px behind a fast cursor. -/
def cexCoreFastState : CoreState :=
  { cexCoreWalkState with stickman_x := 480 }

/-- The matching test.py overlay: same cursor history, same stickman
position, same current clip. -/
def cexTestFastState : TestPy.TestState :=
  { anim := demoMovieSys,
    idle_sequence_index := 0,
    idle_1_play_count := 0,
    idle_timer := none,
    anim_timer := true,
    browser_timer := true,
    is_chrome_active := false,
    chrome_state := "none",
    running_idle_start_time := none,
    current_direction := "right",
    last_cursor_move_time := 0,
    cursor_stationary := false,
    last_cursor_pos := some ⟨500, 0⟩,
    stickman_pos := 480,
    fixed_y := 100 }

/-- The observation driving both fast states: 60 px in 50 ms — 1200 px/s,
above both variants' thresholds. -/
def cexFastTick : TickIn := { cursor := ⟨560, 0⟩, now := 10, elapsed_ms := 50 }

/-- The test.py overlay matched field-for-field with `cexCoreWalkState`:
same cursor history, same stickman position (440), same current clip. -/
def cexTestEqState : TestPy.TestState :=
  { cexTestFastState with stickman_pos := 440 }

/-! ## Helper lemmas -/

theorem coreSetAnim_idle_sequence_index (s : CoreState) (c : String) :
    (coreSetAnim s c).idle_sequence_index = s.idle_sequence_index := rfl

theorem coreSetAnim_cursor_stationary (s : CoreState) (c : String) :
    (coreSetAnim s c).cursor_stationary = s.cursor_stationary := rfl

theorem coreSetAnim_movement_locked (s : CoreState) (c : String) :
    (coreSetAnim s c).movement_locked = s.movement_locked := rfl

theorem coreSetAnim_chrome_state (s : CoreState) (c : String) :
    (coreSetAnim s c).chrome_state = s.chrome_state := rfl

theorem schedule_next_idle_proj (s : CoreState) :
    (schedule_next_idle s).idle_sequence_index = s.idle_sequence_index ∧
    (schedule_next_idle s).cursor_stationary = s.cursor_stationary ∧
    (schedule_next_idle s).movement_locked = s.movement_locked ∧
    (schedule_next_idle s).chrome_state = s.chrome_state ∧
    (schedule_next_idle s).anim = s.anim :=
  ⟨rfl, rfl, rfl, rfl, rfl⟩



theorem setRunning_mem {l : List (String × Movie)} {name : String} {b : Bool}
    {p : String × Movie} (hp : p ∈ setRunning l name b) :
    ∃ q ∈ l, p = if q.1 = name then (q.1, { q.2 with running := b }) else q := by
  rcases List.mem_map.1 hp with ⟨q, hq, h⟩
  exact ⟨q, hq, h.symm⟩

theorem setRunning_find? (l : List (String × Movie)) (name : String)
    (b : Bool) (key : String) :
    (setRunning l name b).find? (fun p => p.1 = key) =
      ((l.find? (fun p => p.1 = key)).map
        (fun q => if q.1 = name then (q.1, { q.2 with running := b }) else q)) := by
  unfold setRunning
  rw [List.find?_map]
  have hpred : ((fun p : String × Movie => decide (p.1 = key)) ∘
      (fun q : String × Movie =>
        if q.1 = name then (q.1, { q.2 with running := b }) else q)) =
      (fun p : String × Movie => decide (p.1 = key)) := by
    funext q
    by_cases h : q.1 = name <;> simp [Function.comp, h]
  rw [hpred]

/-- `set_animation` never adds or removes dictionary keys: whether a clip
is loaded is stable. -/
theorem lookupMovie_set_animation_isSome (ms : MovieSys) (c n : String) :
    (lookupMovie (set_animation ms c) n).isSome = (lookupMovie ms n).isSome := by
  unfold set_animation
  split
  · rfl
  · split
    · rfl
    · split
      · rfl
      · show ((setRunning (stopCurrent ms.movies ms.current_movie) c true).find?
            (fun p => p.1 = n) |>.map (fun p => p.2)).isSome = _
        cases ms.current_movie with
        | none =>
          simp only [stopCurrent]
          rw [setRunning_find?]
          cases hfind : ms.movies.find? (fun p => p.1 = n) <;>
            simp [lookupMovie, hfind]
        | some cm =>
          simp only [stopCurrent]
          rw [setRunning_find?, setRunning_find?]
          cases hfind : ms.movies.find? (fun p => p.1 = n) <;>
            simp [lookupMovie, hfind]

/-- After the stop-then-start sequence of `set_animation`, any movie left
running is the freshly started one. -/
theorem setRunning_active {movies : List (String × Movie)} {cn : Option String}
    (hrun : ∀ p ∈ movies, p.2.running = true → some p.1 = cn)
    (c : String) {p : String × Movie}
    (hp : p ∈ setRunning (stopCurrent movies cn) c true)
    (hrp : p.2.running = true) : p.1 = c := by
  rcases setRunning_mem hp with ⟨q, hq, hpq⟩
  by_cases hqc : q.1 = c
  · rw [if_pos hqc] at hpq
    rw [hpq]
    exact hqc
  · rw [if_neg hqc] at hpq
    rw [hpq] at hrp
    exfalso
    cases cn with
    | none => exact Option.noConfusion (hrun q hq hrp)
    | some cm =>
      simp only [stopCurrent] at hq
      rcases setRunning_mem hq with ⟨r, hr, hqr⟩
      by_cases hrc : r.1 = cm
      · rw [if_pos hrc] at hqr
        rw [hqr] at hrp
        simp at hrp
      · rw [if_neg hrc] at hqr
        rw [hqr] at hrp
        exact hrc (Option.some_injective _ (hrun r hr hrp))

theorem singleActive_set_animation {ms : MovieSys} (h : singleActive ms)
    (c : String) : singleActive (set_animation ms c) := by
  obtain ⟨hcm, hrun⟩ := h
  unfold set_animation
  split
  · exact ⟨hcm, hrun⟩
  · split
    · exact ⟨hcm, hrun⟩
    · split
      · exact ⟨hcm, hrun⟩
      · refine ⟨rfl, ?_⟩
        intro p hp hrp
        have hps : p ∈ setRunning (stopCurrent ms.movies ms.current_movie)
            c true := hp
        rw [hcm] at hps
        exact congrArg some (setRunning_active hrun c hps hrp)

/-! ## Claims -/

/-- **C9.** `set_animation` is a no-op — the movie dictionary, `cur_name`
and `current_movie` are all left unchanged — whenever the requested clip
equals the current clip, is not a key of the movies dictionary, or maps
to an invalid movie.  This is the shared guard structure of core.py lines
453-459 and test.py lines 254-259. -/
theorem claim_C9_set_animation_noop (ms : MovieSys) (name : String)
    (h : some name = ms.cur_name ∨ lookupMovie ms name = none ∨
      ∃ m, lookupMovie ms name = some m ∧ m.valid = false) :
    set_animation ms name = ms := by
  unfold set_animation
  by_cases hc : some name = ms.cur_name
  · simp [hc]
  · simp only [if_neg hc]
    rcases h with h | h | ⟨m, hm, hv⟩
    · exact absurd h hc
    · rw [h]
    · rw [hm]; simp [hv]

theorem claim_C9_witness :
    (some IDLE_CLIP_1 = demoMovieSys.cur_name ∧
      set_animation demoMovieSys IDLE_CLIP_1 = demoMovieSys) ∧
    (lookupMovie demoMovieSys "no_such_clip.gif" = none ∧
      set_animation demoMovieSys "no_such_clip.gif" = demoMovieSys) :=
  ⟨⟨by decide,
    claim_C9_set_animation_noop demoMovieSys IDLE_CLIP_1 (Or.inl (by decide))⟩,
   ⟨by decide,
    claim_C9_set_animation_noop demoMovieSys "no_such_clip.gif"
      (Or.inr (Or.inl (by decide)))⟩⟩

/-- **C5.** Exactly one animation handle is active at a time: starting
from a freshly loaded dictionary (no movie started, no current clip),
after any sequence of `set_animation` calls at most one movie in the
dictionary is started, and `cur_name` / `current_movie` both name it.
`set_animation` is the only place either variant starts a movie. -/
theorem claim_C5_single_active (ms : MovieSys)
    (h0 : ∀ p ∈ ms.movies, p.2.running = false)
    (h1 : ms.cur_name = none) (h2 : ms.current_movie = none)
    (reqs : List String) :
    singleActive (reqs.foldl set_animation ms) ∧
    ∀ p ∈ (reqs.foldl set_animation ms).movies,
      ∀ q ∈ (reqs.foldl set_animation ms).movies,
        p.2.running = true → q.2.running = true → p.1 = q.1 := by
  have base : singleActive ms := by
    refine ⟨h2.trans h1.symm, ?_⟩
    intro p hp hr
    rw [h0 p hp] at hr
    exact Bool.noConfusion hr
  have main : ∀ (reqs : List String) (ms0 : MovieSys), singleActive ms0 →
      singleActive (reqs.foldl set_animation ms0) := by
    intro reqs
    induction reqs with
    | nil => intro ms0 h; exact h
    | cons c cs ih =>
      intro ms0 h
      exact ih _ (singleActive_set_animation h c)
  have hA := main reqs ms base
  refine ⟨hA, ?_⟩
  intro p hp q hq hrp hrq
  have h1 := hA.2 p hp hrp
  have h2 := hA.2 q hq hrq
  exact Option.some_injective _ (h1.trans h2.symm)

/-- The emissions of a monitor run never repeat a boolean, and the first
emission differs from the starting `last_chrome_state`. -/
theorem monitorRun_chain (checks : List (Except Unit Bool)) :
    ∀ last, (monitorRun last checks).Chain' (fun a b => a ≠ b) ∧
      (∀ x, (monitorRun last checks).head? = some x → x ≠ last) := by
  induction checks with
  | nil =>
    intro last
    refine ⟨List.chain'_nil, ?_⟩
    intro x hx
    simp [monitorRun] at hx
  | cons c cs ih =>
    intro last
    cases c with
    | error e =>
      have hred : monitorRun last (.error e :: cs) = monitorRun last cs := by
        simp [monitorRun, monitorStep]
      rw [hred]
      exact ih last
    | ok b =>
      by_cases hb : b = last
      · have hred : monitorRun last (.ok b :: cs) = monitorRun last cs := by
          simp [monitorRun, monitorStep, hb]
        rw [hred]
        exact ih last
      · have hred : monitorRun last (.ok b :: cs) = b :: monitorRun b cs := by
          simp [monitorRun, monitorStep, hb]
        rw [hred]
        rcases ih b with ⟨hch, hhd⟩
        refine ⟨List.chain'_cons'.mpr ⟨?_, hch⟩, ?_⟩
        · intro y hy
          exact (hhd y hy).symm
        · intro x hx
          rw [List.head?_cons, Option.some.injEq] at hx
          rw [hx] at hb
          exact hb

/-- **C7.** The monitor thread communicates only a boolean flag and only
on change: starting from `last_chrome_state = False`, no two consecutive
emissions of `chrome_status_changed` carry the same boolean; an iteration
emits exactly when the check succeeds with a value different from the
last emitted one; and an iteration whose check raises emits nothing. -/
theorem claim_C7_monitor_emits_on_change :
    (∀ checks : List (Except Unit Bool),
      (monitorRun false checks).Chain' (fun a b => a ≠ b)) ∧
    (∀ (last b : Bool), (monitorStep last (.ok b)).2 =
      if b = last then none else some b) ∧
    (∀ (last : Bool) (e : Unit), (monitorStep last (.error e)).2 = none) := by
  refine ⟨?_, ?_, ?_⟩
  · intro checks
    exact (monitorRun_chain checks false).1
  · intro last b
    by_cases hb : b = last <;> simp [monitorStep, hb]
  · intro last e
    rfl

/-- **C8.** A single keyboard shortcut exits the program: of the
shortcuts installed by `setup_shortcuts` (Escape and F12 in core.py,
Escape alone in test.py), exactly the Escape one requests application
quit; its handler `safe_exit` runs `cleanup` — stopping the monitor
thread, every timer and every loaded movie — and then quits. -/
theorem claim_C8_escape_exits :
    (∀ s : CoreState,
      (core_shortcut_table.filter (fun p => (runShortcut p.2 s).2)).map
        (fun p => p.1) = ["Escape"]) ∧
    (∀ s : CoreState,
      (test_shortcut_table.filter (fun p => (runShortcut p.2 s).2)).map
        (fun p => p.1) = ["Escape"]) ∧
    (∀ s : CoreState,
      (safe_exit s).2 = true ∧
      (safe_exit s).1.monitor_running = false ∧
      (safe_exit s).1.anim_timer = false ∧
      (safe_exit s).1.idle_timer = none ∧
      (safe_exit s).1.enjoy_timer = none ∧
      (safe_exit s).1.click_timer = false ∧
      (safe_exit s).1.click_timer_single = none ∧
      (safe_exit s).1.click_timer_double = none ∧
      ∀ p ∈ (safe_exit s).1.anim.movies, p.2.running = false) := by
  refine ⟨?_, ?_, ?_⟩
  · intro s
    simp [core_shortcut_table, runShortcut, safe_exit, show_debug_info]
  · intro s
    simp [test_shortcut_table, runShortcut, safe_exit]
  · intro s
    refine ⟨rfl, rfl, rfl, rfl, rfl, rfl, rfl, rfl, ?_⟩
    intro p hp
    have hp' : p ∈ s.anim.movies.map
        (fun p => (p.1, { p.2 with running := false })) := hp
    rcases List.mem_map.1 hp' with ⟨q, _, h⟩
    rw [← h]

/-- **C6.** Error handling is catch-print-continue with default-value
fallbacks, across both variants: `setup_position` falls back to
`fixed_y = 100` and the default stickman position when the screen query
raises; `update_state` returns leaving the state untouched when the
cursor cannot be read; `detect_click`, `check_chrome_active` and the
monitor-loop body swallow a raised exception without changing state or
selecting anything; and `safe_movie` returns `None` for a missing file,
a loading exception, or an invalid movie. -/
theorem claim_C6_catch_and_fall_back :
    (setup_position none =
      { fixed_y := 100, last_cursor_pos := some ⟨500, 100⟩, stickman_x := 500 }) ∧
    (TestPy.setup_position none =
      { fixed_y := 100, last_cursor_pos := some ⟨100, 100⟩, stickman_x := 100 }) ∧
    (∀ (s : CoreState) (now e : ℚ), coreUpdateTick s none now e = (s, [])) ∧
    (∀ (s : CoreState) (now : ℚ), detect_click s (.error ()) now = (s, none)) ∧
    (∀ s : TestPy.TestState, TestPy.check_chrome_active s (.error ()) = (s, none)) ∧
    (∀ last : Bool, monitorStep last (.error ()) = (last, none)) ∧
    (∀ f : GifFile, f.exists_on_disk = false → safe_movie f = none) ∧
    (∀ f : GifFile, f.raises = true → safe_movie f = none) ∧
    (∀ f : GifFile, f.is_valid = false → safe_movie f = none) := by
  refine ⟨rfl, rfl, ?_, ?_, ?_, ?_, ?_, ?_, ?_⟩
  · intro s now e
    rfl
  · intro s now
    unfold detect_click
    split
    · rfl
    · rfl
  · intro s
    rfl
  · intro last
    rfl
  · intro f h
    simp [safe_movie, h]
  · intro f h
    unfold safe_movie
    split
    · rfl
    · simp [h]
  · intro f h
    unfold safe_movie
    split
    · rfl
    · split
      · rfl
      · simp [h]

theorem claim_C6_witness :
    setup_position none =
      { fixed_y := 100, last_cursor_pos := some ⟨500, 100⟩, stickman_x := 500 } ∧
    safe_movie { exists_on_disk := false, raises := false, is_valid := true } = none ∧
    safe_movie { exists_on_disk := true, raises := true, is_valid := true } = none ∧
    safe_movie { exists_on_disk := true, raises := false, is_valid := false } = none :=
  ⟨claim_C6_catch_and_fall_back.1,
   claim_C6_catch_and_fall_back.2.2.2.2.2.2.1 _ rfl,
   claim_C6_catch_and_fall_back.2.2.2.2.2.2.2.1 _ rfl,
   claim_C6_catch_and_fall_back.2.2.2.2.2.2.2.2 _ rfl⟩

theorem claim_C5_witness :
    (∀ p ∈ freshMovieSys.movies, p.2.running = false) ∧
    freshMovieSys.cur_name = none ∧ freshMovieSys.current_movie = none ∧
    singleActive
      ([IDLE_CLIP_1, WALK_RIGHT, RUN_RIGHT].foldl set_animation freshMovieSys) :=
  ⟨by decide, by decide, by decide,
   (claim_C5_single_active freshMovieSys (by decide) (by decide) (by decide)
     [IDLE_CLIP_1, WALK_RIGHT, RUN_RIGHT]).1⟩

/-- When the guards fail, the idle-timer callback does nothing. -/
theorem play_next_idle_guard_fail (s : CoreState)
    (h : ¬(s.cursor_stationary = true) ∨ s.movement_locked = true ∨
      ¬(s.chrome_state = "none")) :
    play_next_idle s = (s, none) := by
  unfold play_next_idle
  rw [if_pos h]

/-- The exact index arithmetic of one `play_next_idle` firing under its
guards: increment, clamped to the last position. -/
theorem play_next_idle_idx (s : CoreState)
    (h1 : s.cursor_stationary = true) (h2 : s.movement_locked = false)
    (h3 : s.chrome_state = "none")
    (h4 : s.idle_sequence_index < IDLE_CLIPS.length) :
    (play_next_idle s).1.idle_sequence_index =
      if IDLE_CLIPS.length ≤ s.idle_sequence_index + 1
      then IDLE_CLIPS.length - 1 else s.idle_sequence_index + 1 := by
  unfold play_next_idle
  rw [if_neg (by simp [h1, h2, h3]), if_pos h4]
  dsimp only
  rw [(schedule_next_idle_proj _).1]
  rfl

/-- One firing preserves the index bound, with or without guards. -/
theorem play_next_idle_idx_le (s : CoreState)
    (hs : s.idle_sequence_index ≤ 4) :
    (play_next_idle s).1.idle_sequence_index ≤ 4 := by
  unfold play_next_idle
  split
  · exact hs
  · split
    · dsimp only
      rw [(schedule_next_idle_proj _).1]
      show (if IDLE_CLIPS.length ≤ s.idle_sequence_index + 1
        then IDLE_CLIPS.length - 1 else s.idle_sequence_index + 1) ≤ 4
      split
      · decide
      · rename_i hlt
        have h5 : ¬(5 ≤ s.idle_sequence_index + 1) := hlt
        omega
    · exact hs

/-- **C10.** In core.py the invariant
`0 ≤ idle_sequence_index ≤ len(IDLE_CLIPS) - 1` holds after
initialisation and is preserved by every operation touching the index:
`reset_idle_sequence` and `start_idle_sequence` reset it to 0,
`play_next_idle` increments it and clamps it back to
`len(IDLE_CLIPS) - 1` when it would reach `len(IDLE_CLIPS)`.  (The lower
bound is the claim's `0 <= idle_sequence_index`; the index is a
non-negative machine integer, `Nat` here.) -/
theorem claim_C10_idle_index_invariant :
    (∀ (env : Option ScreenEnv) (t0 : ℚ),
      (coreInitState env t0).idle_sequence_index = 0) ∧
    (∀ s : CoreState, (reset_idle_sequence s).idle_sequence_index = 0) ∧
    (∀ s : CoreState, s.idle_sequence_index ≤ IDLE_CLIPS.length - 1 →
      0 ≤ (start_idle_sequence s).1.idle_sequence_index ∧
      (start_idle_sequence s).1.idle_sequence_index ≤ IDLE_CLIPS.length - 1) ∧
    (∀ s : CoreState, s.idle_sequence_index ≤ IDLE_CLIPS.length - 1 →
      0 ≤ (play_next_idle s).1.idle_sequence_index ∧
      (play_next_idle s).1.idle_sequence_index ≤ IDLE_CLIPS.length - 1) ∧
    (∀ s : CoreState, s.cursor_stationary = true → s.movement_locked = false →
      s.chrome_state = "none" →
      s.idle_sequence_index + 1 = IDLE_CLIPS.length →
      (play_next_idle s).1.idle_sequence_index = IDLE_CLIPS.length - 1) ∧
    (∀ s : CoreState, s.cursor_stationary = true → s.movement_locked = false →
      s.chrome_state = "none" →
      s.idle_sequence_index + 1 < IDLE_CLIPS.length →
      (play_next_idle s).1.idle_sequence_index = s.idle_sequence_index + 1) := by
  refine ⟨fun env t0 => rfl, fun s => rfl, ?_, ?_, ?_, ?_⟩
  · intro s hs
    refine ⟨Nat.zero_le _, ?_⟩
    unfold start_idle_sequence
    split
    · exact play_next_idle_idx_le _ (by show (0:Nat) ≤ 4; decide)
    · exact hs
  · intro s hs
    exact ⟨Nat.zero_le _, play_next_idle_idx_le s hs⟩
  · intro s h1 h2 h3 h4
    rw [play_next_idle_idx s h1 h2 h3 (by omega)]
    rw [if_pos (by omega)]
  · intro s h1 h2 h3 h4
    rw [play_next_idle_idx s h1 h2 h3 (by omega)]
    rw [if_neg (by omega)]

theorem claim_C10_witness :
    (coreInitState none 0).idle_sequence_index = 0 ∧
    (coreInitState none 0).idle_sequence_index ≤ IDLE_CLIPS.length - 1 ∧
    (play_next_idle (coreInitState none 0)).1.idle_sequence_index ≤
      IDLE_CLIPS.length - 1 :=
  ⟨claim_C10_idle_index_invariant.1 none 0,
   by decide,
   (claim_C10_idle_index_invariant.2.2.2.1 (coreInitState none 0)
     (by decide)).2⟩

/-! ## Claim C4: the idle sequences of the two variants -/

theorem play_next_idle_preserves (s : CoreState) :
    (play_next_idle s).1.cursor_stationary = s.cursor_stationary ∧
    (play_next_idle s).1.movement_locked = s.movement_locked ∧
    (play_next_idle s).1.chrome_state = s.chrome_state := by
  unfold play_next_idle
  split
  · exact ⟨rfl, rfl, rfl⟩
  · split
    · exact ⟨rfl, rfl, rfl⟩
    · exact ⟨rfl, rfl, rfl⟩

theorem play_next_idle_sel (s : CoreState)
    (h1 : s.cursor_stationary = true) (h2 : s.movement_locked = false)
    (h3 : s.chrome_state = "none")
    (h4 : s.idle_sequence_index < IDLE_CLIPS.length) :
    (play_next_idle s).2 = some (IDLE_CLIPS.getD s.idle_sequence_index "") := by
  unfold play_next_idle
  rw [if_neg (by simp [h1, h2, h3]), if_pos h4]

theorem coreIdleIter_inv (s : CoreState)
    (h1 : s.cursor_stationary = true) (h2 : s.movement_locked = false)
    (h3 : s.chrome_state = "none") (h0 : s.idle_sequence_index = 0) :
    ∀ n, (coreIdleIter s n).cursor_stationary = true ∧
      (coreIdleIter s n).movement_locked = false ∧
      (coreIdleIter s n).chrome_state = "none" ∧
      (coreIdleIter s n).idle_sequence_index = min n 4 := by
  intro n
  induction n with
  | zero =>
    refine ⟨h1, h2, h3, ?_⟩
    rw [show coreIdleIter s 0 = s from rfl, h0]
    decide
  | succ n ih =>
    obtain ⟨i1, i2, i3, i4⟩ := ih
    have hstep : coreIdleIter s (n + 1) =
      (play_next_idle (coreIdleIter s n)).1 := rfl
    have hp := play_next_idle_preserves (coreIdleIter s n)
    refine ⟨?_, ?_, ?_, ?_⟩
    · rw [hstep, hp.1, i1]
    · rw [hstep, hp.2.1, i2]
    · rw [hstep, hp.2.2, i3]
    · rw [hstep, play_next_idle_idx _ i1 i2 i3
        (by rw [i4]; show min n 4 < 5; omega)]
      rw [i4]
      show (if IDLE_CLIPS.length ≤ min n 4 + 1 then IDLE_CLIPS.length - 1
        else min n 4 + 1) = min (n + 1) 4
      have hlen : IDLE_CLIPS.length = 5 := rfl
      rw [hlen]
      split
      · rename_i hc
        omega
      · rename_i hc
        omega

theorem play_next_idle_step_stationary (s : TestPy.TestState) :
    (TestPy.play_next_idle_step s).1.cursor_stationary = s.cursor_stationary := by
  unfold TestPy.play_next_idle_step
  split
  · split <;> rfl
  · split
    · split <;> rfl
    · split <;> rfl

theorem test_play_next_idle_eq (s : TestPy.TestState)
    (hst : s.cursor_stationary = true) :
    TestPy.play_next_idle s =
      ({ (TestPy.play_next_idle_step s).1 with
          idle_timer := some TestPy.IDLE_ANIMATION_DELAY },
       (TestPy.play_next_idle_step s).2) := by
  unfold TestPy.play_next_idle
  rw [if_neg (by simp [hst]),
    if_pos ((play_next_idle_step_stationary s).trans hst)]

theorem test_step_a (s : TestPy.TestState)
    (h0 : s.idle_sequence_index = 0) (hc : s.idle_1_play_count < 2) :
    TestPy.play_next_idle_step s =
      ({ TestPy.setAnim s (IDLE_CLIPS.getD 0 "") with
          idle_1_play_count := s.idle_1_play_count + 1,
          idle_sequence_index :=
            if 2 ≤ s.idle_1_play_count + 1 then 1 else s.idle_sequence_index },
       some (IDLE_CLIPS.getD 0 "")) := by
  unfold TestPy.play_next_idle_step
  rw [if_pos h0, if_pos hc]

theorem test_step_c (s : TestPy.TestState)
    (h1 : ¬(s.idle_sequence_index = 0)) (h5 : s.idle_sequence_index < 5)
    (hld : (lookupMovie s.anim
      (IDLE_CLIPS.getD s.idle_sequence_index "")).isSome = true) :
    TestPy.play_next_idle_step s =
      ({ TestPy.setAnim s (IDLE_CLIPS.getD s.idle_sequence_index "") with
          idle_sequence_index := s.idle_sequence_index + 1 },
       some (IDLE_CLIPS.getD s.idle_sequence_index "")) := by
  unfold TestPy.play_next_idle_step
  rw [if_neg h1,
    if_pos (show s.idle_sequence_index < IDLE_CLIPS.length from h5)]
  rw [if_pos hld, if_pos hld]

theorem test_step_d (s : TestPy.TestState)
    (h1 : ¬(s.idle_sequence_index = 0)) (h5 : ¬(s.idle_sequence_index < 5))
    (hld : (lookupMovie s.anim (IDLE_CLIPS.getD 4 "")).isSome = true) :
    TestPy.play_next_idle_step s =
      (TestPy.setAnim { s with idle_sequence_index := 4 } (IDLE_CLIPS.getD 4 ""),
       some (IDLE_CLIPS.getD 4 "")) := by
  unfold TestPy.play_next_idle_step
  rw [if_neg h1,
    if_neg (show ¬(s.idle_sequence_index < IDLE_CLIPS.length) from h5)]
  rw [if_pos hld]

theorem IDLE_CLIPS_getD_mem {i : Nat} (h : i < 5) :
    IDLE_CLIPS.getD i "" ∈ IDLE_CLIPS := by
  interval_cases i <;> decide

theorem idleClipsLoaded_set (ms : MovieSys) (c : String)
    (h : idleClipsLoaded ms) : idleClipsLoaded (set_animation ms c) := by
  intro c' hc'
  rw [lookupMovie_set_animation_isSome]
  exact h c' hc'

/-- One firing of the test.py idle timer advances the reachable-state
invariant and selects the clip of the `min (n-1) 4` formula. -/
theorem testIdleInv_step {s : TestPy.TestState} {n : Nat}
    (h : TestIdleInv s n) :
    TestIdleInv (TestPy.play_next_idle s).1 (n + 1) ∧
    (TestPy.play_next_idle s).2 =
      some (IDLE_CLIPS.getD (min (n - 1) 4) "") := by
  obtain ⟨hst, hld, hcase⟩ := h
  have heq := test_play_next_idle_eq s hst
  rcases hcase with ⟨hn, h0, hc⟩ | ⟨hn, h0, hc⟩ | ⟨hn2, hn5, hidx⟩ |
    ⟨hn6, hidx⟩
  · -- n = 0: first play of idle_1, index does not advance
    subst hn
    rw [heq, test_step_a s h0 (by rw [hc]; decide)]
    refine ⟨⟨hst, idleClipsLoaded_set _ _ hld, ?_⟩, rfl⟩
    refine Or.inr (Or.inl ⟨rfl, ?_, ?_⟩)
    · show (if 2 ≤ s.idle_1_play_count + 1 then 1
        else s.idle_sequence_index) = 0
      rw [hc, h0]
      decide
    · show s.idle_1_play_count + 1 = 1
      rw [hc]
  · -- n = 1: second play of idle_1, index moves to 1
    subst hn
    rw [heq, test_step_a s h0 (by rw [hc]; decide)]
    refine ⟨⟨hst, idleClipsLoaded_set _ _ hld, ?_⟩, rfl⟩
    refine Or.inr (Or.inr (Or.inl ⟨by decide, by decide, ?_⟩))
    show (if 2 ≤ s.idle_1_play_count + 1 then 1
      else s.idle_sequence_index) = 2 - 1
    rw [hc]
    rw [if_pos (by decide)]
  · -- 2 ≤ n ≤ 5: the index walks 1,2,3,4
    have h1 : ¬(s.idle_sequence_index = 0) := by omega
    have h5 : s.idle_sequence_index < 5 := by omega
    have hldc := hld _ (IDLE_CLIPS_getD_mem h5)
    rw [heq, test_step_c s h1 h5 hldc]
    constructor
    · refine ⟨hst, idleClipsLoaded_set _ _ hld, ?_⟩
      by_cases hn4 : n ≤ 4
      · refine Or.inr (Or.inr (Or.inl ⟨by omega, by omega, ?_⟩))
        show s.idle_sequence_index + 1 = n + 1 - 1
        omega
      · refine Or.inr (Or.inr (Or.inr ⟨by omega, Or.inr ?_⟩))
        show s.idle_sequence_index + 1 = 5
        omega
    · show some (IDLE_CLIPS.getD s.idle_sequence_index "") =
        some (IDLE_CLIPS.getD (min (n - 1) 4) "")
      rw [hidx]
      congr 2
      omega
  · -- 6 ≤ n: the index alternates between 4 and 5 on idle_5
    rcases hidx with h4 | h5x
    · have h1 : ¬(s.idle_sequence_index = 0) := by omega
      have h5 : s.idle_sequence_index < 5 := by omega
      have hldc := hld _ (IDLE_CLIPS_getD_mem h5)
      rw [heq, test_step_c s h1 h5 hldc]
      constructor
      · refine ⟨hst, idleClipsLoaded_set _ _ hld, ?_⟩
        refine Or.inr (Or.inr (Or.inr ⟨by omega, Or.inr ?_⟩))
        show s.idle_sequence_index + 1 = 5
        omega
      · show some (IDLE_CLIPS.getD s.idle_sequence_index "") =
          some (IDLE_CLIPS.getD (min (n - 1) 4) "")
        rw [h4]
        congr 2
        omega
    · have h1 : ¬(s.idle_sequence_index = 0) := by omega
      have h5 : ¬(s.idle_sequence_index < 5) := by omega
      have hldc := hld (IDLE_CLIPS.getD 4 "") (by decide)
      rw [heq, test_step_d s h1 h5 hldc]
      constructor
      · refine ⟨hst, idleClipsLoaded_set _ _ hld, ?_⟩
        exact Or.inr (Or.inr (Or.inr ⟨by omega, Or.inl rfl⟩))
      · show some (IDLE_CLIPS.getD 4 "") =
          some (IDLE_CLIPS.getD (min (n - 1) 4) "")
        congr 2
        omega

theorem testIdleInv_iter {s : TestPy.TestState} (h : TestIdleInv s 0) :
    ∀ n, TestIdleInv (TestPy.idleIter s n) n := by
  intro n
  induction n with
  | zero => exact h
  | succ n ih => exact (testIdleInv_step ih).1

/-- **C4 (counterexample).** On test.py, the very first firing of the
idle timer from the reset state selects `IDLE_CLIPS[0]` but does *not*
advance the index by one: the index stays 0 (idle_1 must play twice
before the index first moves), refuting the claim that each firing
advances the index. -/
theorem claim_C4_counterexample :
    (TestPy.play_next_idle cexTestIdleState).2 = some IDLE_CLIP_1 ∧
    (TestPy.play_next_idle cexTestIdleState).1.idle_sequence_index = 0 ∧
    ¬((TestPy.play_next_idle cexTestIdleState).1.idle_sequence_index =
      cexTestIdleState.idle_sequence_index + 1) := by
  refine ⟨?_, ?_, ?_⟩ <;> decide

/-- **C4 (amended).**  The idle sequence, with the guards of each variant
held (cursor stationary throughout; in core.py additionally no browser
state and no movement lock; every idle clip loaded): in core.py, starting
at index 0, the `n`-th firing of the idle timer selects
`IDLE_CLIPS[min n 4]` — each firing selects the clip at the current
index and advances the index by one, clamped at the last position, so
after the last clip the overlay keeps selecting `idle_animation_5`.  In
test.py, the first two firings both select `idle_animation_1` (the index
advances only after the second), then each firing advances as claimed,
and the `n`-th firing selects `IDLE_CLIPS[min (n-1) 4]`, again ending on
`idle_animation_5` forever. -/
theorem claim_C4_idle_sequence_amended (s : CoreState)
    (st : TestPy.TestState)
    (hc1 : s.cursor_stationary = true) (hc2 : s.movement_locked = false)
    (hc3 : s.chrome_state = "none") (hc0 : s.idle_sequence_index = 0)
    (ht : TestIdleInv st 0) :
    (∀ n, coreIdleSel s n = some (IDLE_CLIPS.getD (min n 4) "")) ∧
    (∀ n, TestPy.idleSel st n = some (IDLE_CLIPS.getD (min (n - 1) 4) "")) := by
  constructor
  · intro n
    have hinv := coreIdleIter_inv s hc1 hc2 hc3 hc0 n
    unfold coreIdleSel
    rw [play_next_idle_sel _ hinv.1 hinv.2.1 hinv.2.2.1
      (by rw [hinv.2.2.2]; show min n 4 < 5; omega)]
    rw [hinv.2.2.2]
  · intro n
    exact (testIdleInv_step (testIdleInv_iter ht n)).2

theorem claim_C4_witness :
    coreIdleSel { coreInitState none 0 with cursor_stationary := true } 6 =
      some IDLE_CLIP_5 ∧
    TestPy.idleSel cexTestIdleState 6 = some IDLE_CLIP_5 := by
  have h := claim_C4_idle_sequence_amended
    { coreInitState none 0 with cursor_stationary := true }
    cexTestIdleState rfl rfl rfl rfl
    ⟨rfl, by decide, Or.inl ⟨rfl, rfl, rfl⟩⟩
  exact ⟨(h.1 6).trans (by decide), (h.2 6).trans (by decide)⟩

/-! ## Claim C3: browser detection and the ENJOY/WATCHING cycle -/

/-- A successful `set_animation` (loaded, valid clip) makes the request
the current clip — also when it already was. -/
theorem set_animation_cur_name (ms : MovieSys) (c : String) (m : Movie)
    (hl : lookupMovie ms c = some m) (hv : m.valid = true) :
    (set_animation ms c).cur_name = some c := by
  unfold set_animation
  split
  · rename_i h
    exact h.symm
  · split
    · rename_i heq
      rw [hl] at heq
      exact Option.noConfusion heq
    · rename_i mv heq
      split
      · rename_i hval
        rw [hl] at heq
        injection heq with h2
        rw [h2] at hv
        rw [hv] at hval
        exact Bool.noConfusion hval
      · rfl

/-- `set_animation` on the clip that is already current is a no-op. -/
theorem set_animation_noop_same (ms : MovieSys) (c : String)
    (h : ms.cur_name = some c) : set_animation ms c = ms := by
  unfold set_animation
  rw [if_pos h.symm]

/-- **C3 (counterexample).** In test.py, when the browser first becomes
the foreground application while the single-tap click animation is
playing, `check_chrome_active` switches `chrome_state` to "enjoying" but
does not play ENJOY: the current clip stays `single_tap.gif`. -/
theorem claim_C3_counterexample :
    cexTestClickState.is_chrome_active = false ∧
    (TestPy.check_chrome_active cexTestClickState (.ok true)).1.chrome_state
      = "enjoying" ∧
    (TestPy.check_chrome_active cexTestClickState (.ok true)).1.anim.cur_name
      = some CLICK_SINGLE ∧
    ¬((TestPy.check_chrome_active cexTestClickState
        (.ok true)).1.anim.cur_name = some ENJOY) := by
  refine ⟨?_, ?_, ?_, ?_⟩ <;> decide

/-- **C3 (amended).** When the foreground application first becomes a
browser process, the overlay plays the ENJOY animation — unconditionally
in core.py; in test.py only when no ENJOY/WATCHING/click animation is
currently playing — and then transitions to WATCHING (in core.py via the
enjoy timer's `start_watching` and via `on_animation_finished`), which
re-selects itself while the browser stays active; when the browser stops
being the foreground application while ENJOY or WATCHING is playing,
`chrome_state` returns to "none" and the overlay returns to the first
idle animation. -/
theorem claim_C3_browser_cycle_amended :
    (∀ (s : CoreState) (now : ℚ) (wx wy : ℤ) (m : Movie),
      s.is_chrome_active = false →
      lookupMovie s.anim ENJOY = some m → m.valid = true →
      (on_chrome_status_changed s true now wx wy).1.chrome_state = "enjoying" ∧
      (on_chrome_status_changed s true now wx wy).1.anim.cur_name = some ENJOY ∧
      (on_chrome_status_changed s true now wx wy).1.enjoy_timer =
        some ENJOY_DURATION) ∧
    (∀ (s : CoreState) (m : Movie),
      lookupMovie s.anim WATCHING = some m → m.valid = true →
      (start_watching s).1.chrome_state = "watching" ∧
      (start_watching s).1.anim.cur_name = some WATCHING) ∧
    (∀ (s : CoreState) (m : Movie),
      lookupMovie s.anim WATCHING = some m → m.valid = true →
      (on_animation_finished s ENJOY).1.chrome_state = "watching" ∧
      (on_animation_finished s ENJOY).1.anim.cur_name = some WATCHING) ∧
    (∀ s : CoreState,
      s.is_chrome_active = true → s.chrome_state = "watching" →
      s.anim.cur_name = some WATCHING →
      (on_animation_finished s WATCHING).1.chrome_state = "watching" ∧
      (on_animation_finished s WATCHING).1.anim.cur_name = some WATCHING) ∧
    (∀ (s : CoreState) (now : ℚ) (wx wy : ℤ) (m : Movie),
      s.is_chrome_active = true →
      (s.anim.cur_name = some ENJOY ∨ s.anim.cur_name = some WATCHING) →
      lookupMovie s.anim IDLE_CLIP_1 = some m → m.valid = true →
      (on_chrome_status_changed s false now wx wy).1.chrome_state = "none" ∧
      (on_chrome_status_changed s false now wx wy).1.anim.cur_name =
        some IDLE_CLIP_1) ∧
    (∀ (st : TestPy.TestState) (m : Movie),
      st.is_chrome_active = false →
      ¬(st.anim.cur_name ∈ [some ENJOY, some WATCHING, some CLICK_SINGLE,
        some CLICK_DOUBLE]) →
      lookupMovie st.anim ENJOY = some m → m.valid = true →
      (TestPy.check_chrome_active st (.ok true)).1.chrome_state = "enjoying" ∧
      (TestPy.check_chrome_active st (.ok true)).1.anim.cur_name = some ENJOY) ∧
    (∀ (st : TestPy.TestState) (m : Movie),
      st.is_chrome_active = true →
      (st.anim.cur_name = some ENJOY ∨ st.anim.cur_name = some WATCHING) →
      lookupMovie st.anim IDLE_CLIP_1 = some m → m.valid = true →
      (TestPy.check_chrome_active st (.ok false)).1.chrome_state = "none" ∧
      (TestPy.check_chrome_active st (.ok false)).1.anim.cur_name =
        some IDLE_CLIP_1) := by
  refine ⟨?_, ?_, ?_, ?_, ?_, ?_, ?_⟩
  · -- core: browser first detected
    intro s now wx wy m hia hl hv
    unfold on_chrome_status_changed
    rw [if_pos ⟨rfl, hia⟩]
    split
    · exact ⟨rfl, set_animation_cur_name s.anim ENJOY m hl hv, rfl⟩
    · rename_i hniso
      have hiso : (lookupMovie s.anim ENJOY).isSome = true := by rw [hl]; rfl
      exact absurd hiso hniso
  · -- enjoy timer fires
    intro s m hl hv
    unfold start_watching
    split
    · exact ⟨rfl, set_animation_cur_name s.anim WATCHING m hl hv⟩
    · rename_i hniso
      have hiso : (lookupMovie s.anim WATCHING).isSome = true := by rw [hl]; rfl
      exact absurd hiso hniso
  · -- ENJOY finished
    intro s m hl hv
    unfold on_animation_finished
    rw [if_pos rfl]
    split
    · exact ⟨rfl, set_animation_cur_name s.anim WATCHING m hl hv⟩
    · rename_i hniso
      have hiso : (lookupMovie s.anim WATCHING).isSome = true := by rw [hl]; rfl
      exact absurd hiso hniso
  · -- WATCHING finished while browser active: loops
    intro s hia hcs hcur
    unfold on_animation_finished
    rw [if_neg (by decide), if_pos rfl, if_pos ⟨hia, hcs⟩]
    split
    · refine ⟨hcs, ?_⟩
      show (set_animation s.anim WATCHING).cur_name = some WATCHING
      rw [set_animation_noop_same s.anim WATCHING hcur]
      exact hcur
    · exact ⟨hcs, hcur⟩
  · -- core: browser gone while ENJOY/WATCHING playing
    intro s now wx wy m hia hcur hl hv
    unfold on_chrome_status_changed
    rw [if_neg (by simp), if_pos ⟨rfl, hia⟩]
    split
    · unfold return_to_idle_1
      split
      · exact ⟨rfl, set_animation_cur_name s.anim (IDLE_CLIPS.getD 0 "") m hl hv⟩
      · rename_i hniso
        have hiso : (lookupMovie s.anim IDLE_CLIP_1).isSome = true := by
          rw [hl]; rfl
        exact absurd hiso hniso
    · rename_i hnc
      exact absurd hcur hnc
  · -- test.py: browser first detected outside special clips
    intro st m hia hnc hl hv
    show (TestPy.check_chrome_active_ok st true).1.chrome_state = "enjoying" ∧
      (TestPy.check_chrome_active_ok st true).1.anim.cur_name = some ENJOY
    unfold TestPy.check_chrome_active_ok
    rw [if_pos ⟨rfl, hia⟩]
    split
    · exact ⟨rfl, set_animation_cur_name st.anim ENJOY m hl hv⟩
    · rename_i hncond
      have hiso : (lookupMovie st.anim ENJOY).isSome = true := by rw [hl]; rfl
      exact absurd ⟨hnc, hiso⟩ hncond
  · -- test.py: browser gone while ENJOY/WATCHING playing
    intro st m hia hcur hl hv
    show (TestPy.check_chrome_active_ok st false).1.chrome_state = "none" ∧
      (TestPy.check_chrome_active_ok st false).1.anim.cur_name = some IDLE_CLIP_1
    unfold TestPy.check_chrome_active_ok
    rw [if_neg (by simp), if_pos ⟨rfl, hia⟩]
    split
    · unfold TestPy.return_to_idle_1
      split
      · exact ⟨rfl, set_animation_cur_name st.anim (IDLE_CLIPS.getD 0 "") m hl hv⟩
      · rename_i hniso
        have hiso : (lookupMovie st.anim IDLE_CLIP_1).isSome = true := by
          rw [hl]; rfl
        exact absurd hiso hniso
    · rename_i hnc
      exact absurd hcur hnc

theorem claim_C3_witness :
    (coreInitState none 0).is_chrome_active = false ∧
    (on_chrome_status_changed (coreInitState none 0) true 0 0 0).1.chrome_state
      = "enjoying" ∧
    (on_chrome_status_changed (coreInitState none 0) true 0 0 0).1.anim.cur_name
      = some ENJOY ∧
    (TestPy.check_chrome_active cexTestIdleState (.ok true)).1.anim.cur_name
      = some ENJOY := by
  have h := claim_C3_browser_cycle_amended
  have hl : lookupMovie (coreInitState none 0).anim ENJOY =
      some { valid := true, running := false } := by decide
  have hl2 : lookupMovie cexTestIdleState.anim ENJOY =
      some { valid := true, running := false } := by decide
  exact ⟨rfl,
    (h.1 (coreInitState none 0) 0 0 0 _ rfl hl rfl).1,
    (h.1 (coreInitState none 0) 0 0 0 _ rfl hl rfl).2.1,
    (h.2.2.2.2.2.1 cexTestIdleState _ rfl (by decide) hl2 rfl).2⟩

/-! ## Claim C1: animation selection below the running threshold -/

theorem mem_IDLE_CLIPS_not_run {c : String} (h : c ∈ IDLE_CLIPS) :
    ¬(c = RUN_LEFT ∨ c = RUN_RIGHT) := by
  fin_cases h <;> decide

theorem play_next_idle_sel_mem {s : CoreState} {c : String}
    (h : (play_next_idle s).2 = some c) : c ∈ IDLE_CLIPS := by
  unfold play_next_idle at h
  split at h
  · exact Option.noConfusion h
  · split at h
    · rename_i h4
      dsimp only at h
      injection h with h
      rw [← h]
      exact IDLE_CLIPS_getD_mem h4
    · exact Option.noConfusion h

theorem start_idle_sequence_sel_mem {s : CoreState} {c : String}
    (h : (start_idle_sequence s).2 = some c) : c ∈ IDLE_CLIPS := by
  unfold start_idle_sequence at h
  split at h
  · exact play_next_idle_sel_mem h
  · exact Option.noConfusion h

theorem coreStationaryPhase_sel_mem {s : CoreState} {dx dy : ℤ} {now : ℚ}
    {c : String} (h : (coreStationaryPhase s dx dy now).2 = some c) :
    c ∈ IDLE_CLIPS := by
  unfold coreStationaryPhase at h
  dsimp only at h
  split at h
  · split at h
    · split at h
      · exact Option.noConfusion h
      · exact Option.noConfusion h
    · exact Option.noConfusion h
  · split at h
    · split at h
      · split at h
        · exact start_idle_sequence_sel_mem h
        · exact Option.noConfusion h
      · exact Option.noConfusion h
    · exact Option.noConfusion h

theorem return_to_idle_sel_mem {s : CoreState} {c : String}
    (h : (return_to_idle s).2 = some c) : c ∈ IDLE_CLIPS := by
  unfold return_to_idle at h
  split at h
  · dsimp only at h
    injection h with h
    rw [← h]
    exact IDLE_CLIPS_getD_mem (by decide)
  · exact Option.noConfusion h

/-- The walk and slowing clips are never the run clips. -/
theorem walkAnimFor_not_run (d : String) :
    ¬(walkAnimFor d = RUN_LEFT ∨ walkAnimFor d = RUN_RIGHT) := by
  unfold walkAnimFor
  split <;> decide

theorem slowAnimFor_not_run (d : String) :
    ¬(slowAnimFor d = RUN_LEFT ∨ slowAnimFor d = RUN_RIGHT) := by
  unfold slowAnimFor
  split <;> decide

/-- The animation chain at the end of `update_state` never requests the
run clips when the averaged speed is below the threshold. -/
theorem coreAnimLogic_sel_not_run {s : CoreState} {dx dy : ℤ}
    {avg dist now : ℚ} {c : String} (havg : avg < FAST_CURSOR_SPEED)
    (h : (coreAnimLogic s dx dy avg dist now).2 = some c) :
    ¬(c = RUN_LEFT ∨ c = RUN_RIGHT) := by
  unfold coreAnimLogic at h
  split at h
  · rename_i hcond
    exact absurd hcond.1 (not_le.mpr havg)
  · split at h
    · split at h
      · have h2 : some (walkAnimFor s.current_direction) = some c := h
        injection h2 with h2
        rw [← h2]
        exact walkAnimFor_not_run _
      · exact Option.noConfusion h
    · split at h
      · split at h
        · exact mem_IDLE_CLIPS_not_run (return_to_idle_sel_mem h)
        · split at h
          · split at h
            · split at h
              · split at h
                · have h2 : some (slowAnimFor s.current_direction) = some c := h
                  injection h2 with h2
                  rw [← h2]
                  exact slowAnimFor_not_run _
                · exact Option.noConfusion h
              · exact Option.noConfusion h
            · exact Option.noConfusion h
          · exact Option.noConfusion h
      · exact Option.noConfusion h

/-- Lifted to the move-and-animate step. -/
theorem coreMoveAndAnimate_sel_not_run {s1 : CoreState} {hist1 : List ℚ}
    {dx dy : ℤ} {avg : ℚ} {inp : TickIn} {c : String}
    (havg : avg < FAST_CURSOR_SPEED)
    (h : (coreMoveAndAnimate s1 hist1 dx dy avg inp).2 = some c) :
    ¬(c = RUN_LEFT ∨ c = RUN_RIGHT) :=
  coreAnimLogic_sel_not_run havg h

/-- The concrete walk tick evaluated: measured speed 100 px/s, and the
lone selection of the tick is the walk clip. -/
theorem coreWalk_tick_eval :
    coreMeasuredSpeed cexCoreWalkState cexSlowTick = 100 ∧
    (coreUpdateState cexCoreWalkState cexSlowTick).2 = [WALK_RIGHT] := by
  constructor
  · norm_num [coreMeasuredSpeed, cexCoreWalkState, cexSlowTick, coreSpeedCalc,
      coreCursorMoved]
  · norm_num [coreUpdateState, coreMoveAndAnimate, cexCoreWalkState, cexSlowTick,
      coreSpeedCalc, coreCursorMoved, coreStationaryPhase, start_idle_sequence,
      play_next_idle, reset_idle_sequence, coreMovePhase, coreAnimLogic,
      runAnimFor, walkAnimFor, slowAnimFor, coreSetAnim, set_animation,
      lookupMovie, demoMovieSys, loadedMovies, ALL_CLIPS, IDLE_CLIPS,
      IDLE_CLIP_1, IDLE_CLIP_2, IDLE_CLIP_3, IDLE_CLIP_4, IDLE_CLIP_5,
      WALK_LEFT, WALK_RIGHT, RUN_LEFT, RUN_RIGHT, RUN_IDLE_L, RUN_IDLE_R,
      RUN2SLOW_L, RUN2SLOW_R, CLICK_SINGLE, CLICK_DOUBLE, ENJOY, WATCHING,
      FAST_CURSOR_SPEED, STICKMAN_FOLLOW_SPEED, RUN_IDLE_MAX_TIME,
      List.find?, setRunning, stopCurrent, schedule_next_idle,
      scheduled_idle_timer, IDLE_TIMEOUTS]
    decide

/-- **C1 (counterexample).** A tick whose measured cursor speed (100
px/s) is below `FAST_CURSOR_SPEED` on which `update_state` selects the
walk animation — not an idle animation. -/
theorem claim_C1_counterexample :
    coreMeasuredSpeed cexCoreWalkState cexSlowTick < FAST_CURSOR_SPEED ∧
    (coreUpdateState cexCoreWalkState cexSlowTick).2 = [WALK_RIGHT] ∧
    ¬(WALK_RIGHT ∈ IDLE_CLIPS) := by
  refine ⟨?_, coreWalk_tick_eval.2, by decide⟩
  rw [coreWalk_tick_eval.1]
  norm_num [FAST_CURSOR_SPEED]

/-- **C1 (amended).** Whenever the measured (averaged) cursor speed is
below `FAST_CURSOR_SPEED`, the update loop never selects a running
animation clip (`running_animation_left/right`); it may select a walk
clip, an idle clip, or a slowing clip, depending on distance and state.
(The original claim fails twice: a walk clip is selected below the
threshold, and the slowing clips `running_to_slowing_left/right` — which
core.py counts among `RUNNING_ANIMS` — are selected in the
caught-up branch regardless of speed.) -/
theorem claim_C1_no_run_below_threshold (s : CoreState) (inp : TickIn)
    (hs : coreMeasuredSpeed s inp < FAST_CURSOR_SPEED) :
    ∀ c ∈ (coreUpdateState s inp).2, ¬(c = RUN_LEFT ∨ c = RUN_RIGHT) := by
  intro c hc
  unfold coreUpdateState at hc
  split at hc
  · simp at hc
  · rename_i last hl
    dsimp only at hc
    split at hc
    · rcases Option.mem_toList.mp hc with hsel
      exact mem_IDLE_CLIPS_not_run (coreStationaryPhase_sel_mem hsel)
    · split at hc
      · rcases Option.mem_toList.mp hc with hsel
        exact mem_IDLE_CLIPS_not_run (coreStationaryPhase_sel_mem hsel)
      · rw [List.mem_append] at hc
        have havg : (coreSpeedCalc s.cursor_speed_history
            (decide (coreCursorMoved (inp.cursor.x - last.x)
              (inp.cursor.y - last.y)))
            (inp.cursor.x - last.x) inp.elapsed_ms).2 < FAST_CURSOR_SPEED := by
          have hs2 := hs
          unfold coreMeasuredSpeed at hs2
          rw [hl] at hs2
          exact hs2
        rcases hc with hc | hc
        · exact mem_IDLE_CLIPS_not_run
            (coreStationaryPhase_sel_mem (Option.mem_toList.mp hc))
        · exact coreMoveAndAnimate_sel_not_run havg (Option.mem_toList.mp hc)

theorem claim_C1_witness :
    coreMeasuredSpeed cexCoreWalkState cexSlowTick < FAST_CURSOR_SPEED ∧
    ¬(WALK_RIGHT = RUN_LEFT ∨ WALK_RIGHT = RUN_RIGHT) := by
  have hspeed : coreMeasuredSpeed cexCoreWalkState cexSlowTick <
      FAST_CURSOR_SPEED := by
    rw [coreWalk_tick_eval.1]
    norm_num [FAST_CURSOR_SPEED]
  have hmem : WALK_RIGHT ∈ (coreUpdateState cexCoreWalkState cexSlowTick).2 := by
    rw [coreWalk_tick_eval.2]
    exact List.mem_singleton.mpr rfl
  exact ⟨hspeed,
    claim_C1_no_run_below_threshold cexCoreWalkState cexSlowTick hspeed
      WALK_RIGHT hmem⟩

/-! ## Claim C2: core.py vs test.py update loops -/

theorem runAnimFor_mem_running (d : String) : runAnimFor d ∈ RUNNING_ANIMS := by
  unfold runAnimFor
  split <;> decide

theorem allClipsLoaded_run {ms : MovieSys} (h : allClipsLoaded ms)
    (d : String) : (lookupMovie ms (runAnimFor d)).isSome = true := by
  unfold runAnimFor
  split
  · exact h _ (by decide)
  · exact h _ (by decide)

theorem allClipsLoaded_walk {ms : MovieSys} (h : allClipsLoaded ms)
    (d : String) : (lookupMovie ms (walkAnimFor d)).isSome = true := by
  unfold walkAnimFor
  split
  · exact h _ (by decide)
  · exact h _ (by decide)

/-- The moved-cursor branch of core.py's stationarity bookkeeping never
selects a clip and only touches time, stationarity and idle-sequence
fields. -/
theorem coreStationaryPhase_moved (s : CoreState) {dx dy : ℤ} (now : ℚ)
    (h : coreCursorMoved dx dy) :
    (coreStationaryPhase s dx dy now).2 = none ∧
    (coreStationaryPhase s dx dy now).1.chrome_state = s.chrome_state ∧
    (coreStationaryPhase s dx dy now).1.movement_locked = s.movement_locked ∧
    (coreStationaryPhase s dx dy now).1.anim = s.anim ∧
    (coreStationaryPhase s dx dy now).1.stickman_x = s.stickman_x ∧
    (coreStationaryPhase s dx dy now).1.current_direction =
      s.current_direction ∧
    (coreStationaryPhase s dx dy now).1.cursor_speed_history =
      s.cursor_speed_history ∧
    (coreStationaryPhase s dx dy now).1.running_idle_start_time =
      s.running_idle_start_time ∧
    (coreStationaryPhase s dx dy now).1.chrome_fixed_position =
      s.chrome_fixed_position := by
  unfold coreStationaryPhase
  rw [if_pos h]
  dsimp only
  split
  · split
    · exact ⟨rfl, rfl, rfl, rfl, rfl, rfl, rfl, rfl, rfl⟩
    · exact ⟨rfl, rfl, rfl, rfl, rfl, rfl, rfl, rfl, rfl⟩
  · exact ⟨rfl, rfl, rfl, rfl, rfl, rfl, rfl, rfl, rfl⟩

/-- Direction update and frame-effect of core.py's movement block when
the stickman is far from the cursor and no running clip is playing. -/
theorem coreMovePhase_far (s : CoreState) (cx : ℤ) (es dist : ℚ)
    (h20 : 20 < dist)
    (hnr : ¬(s.anim.cur_name ∈ RUNNING_ANIMS.map some)) :
    (coreMovePhase s cx es dist).current_direction =
      (if s.stickman_x < (cx : ℚ) then "right" else "left") ∧
    (coreMovePhase s cx es dist).anim = s.anim ∧
    (coreMovePhase s cx es dist).movement_locked = s.movement_locked ∧
    (coreMovePhase s cx es dist).running_idle_start_time =
      s.running_idle_start_time := by
  unfold coreMovePhase
  rw [if_pos h20]
  dsimp only
  split_ifs <;>
    first
      | exact ⟨rfl, rfl, rfl, rfl⟩
      | exact absurd
          (‹_ ∧ s.anim.cur_name ∈ RUNNING_ANIMS.map some›).2 hnr

/-- The run/walk selection of core.py's animation chain when the cursor
moved and the stickman is more than 100 px away. -/
theorem coreAnimLogic_fastwalk (s : CoreState) (dx dy : ℤ)
    (avg dist now : ℚ) (hmv : coreCursorMoved dx dy) (hd : 100 < dist)
    (hlk : s.movement_locked = false)
    (hrun : (lookupMovie s.anim (runAnimFor s.current_direction)).isSome = true)
    (hwalk : (lookupMovie s.anim
      (walkAnimFor s.current_direction)).isSome = true) :
    (coreAnimLogic s dx dy avg dist now).2 =
      (if FAST_CURSOR_SPEED ≤ avg then some (runAnimFor s.current_direction)
       else some (walkAnimFor s.current_direction)) := by
  unfold coreAnimLogic
  by_cases hf : FAST_CURSOR_SPEED ≤ avg
  · rw [if_pos ⟨hf, hmv, hd⟩, if_pos ⟨hrun, hlk⟩, if_pos hf]
  · rw [if_neg (fun hh => hf hh.1), if_pos ⟨hmv, by linarith⟩,
      if_pos ⟨hwalk, hlk⟩, if_neg hf]

/-- The moved-cursor branch of test.py's stationarity bookkeeping. -/
theorem testStationaryPhase_moved (s : TestPy.TestState) {dx dy : ℤ}
    (now : ℚ) (h : TestPy.cursorMoved dx dy) :
    (TestPy.stationaryPhase s dx dy now).chrome_state = s.chrome_state ∧
    (TestPy.stationaryPhase s dx dy now).anim = s.anim ∧
    (TestPy.stationaryPhase s dx dy now).stickman_pos = s.stickman_pos ∧
    (TestPy.stationaryPhase s dx dy now).current_direction =
      s.current_direction ∧
    (TestPy.stationaryPhase s dx dy now).running_idle_start_time =
      s.running_idle_start_time := by
  unfold TestPy.stationaryPhase
  rw [if_pos h]
  dsimp only
  split
  · exact ⟨rfl, rfl, rfl, rfl, rfl⟩
  · exact ⟨rfl, rfl, rfl, rfl, rfl⟩

/-- Direction update and frame-effect of test.py's lag-movement block
when the stickman is far from the cursor. -/
theorem testMovePhase_far (s : TestPy.TestState) (cx : ℤ) (ems dist : ℚ)
    (h10 : 10 < dist) :
    (TestPy.movePhase s cx ems dist).current_direction =
      (if s.stickman_pos < (cx : ℚ) then "right" else "left") ∧
    (TestPy.movePhase s cx ems dist).anim = s.anim ∧
    (TestPy.movePhase s cx ems dist).running_idle_start_time =
      s.running_idle_start_time := by
  unfold TestPy.movePhase
  rw [if_pos h10]
  dsimp only
  split
  · exact ⟨rfl, rfl, rfl⟩
  · exact ⟨rfl, rfl, rfl⟩

/-- The run/walk selection of test.py's animation chain when the cursor
moved and the stickman is more than 100 px away. -/
theorem testAnimLogic_fastwalk (s : TestPy.TestState) (dx dy : ℤ)
    (speed dist now : ℚ) (hmv : TestPy.cursorMoved dx dy) (hd : 100 < dist)
    (hnr : ¬(s.anim.cur_name ∈ RUNNING_ANIMS.map some))
    (hrun : (lookupMovie s.anim (runAnimFor s.current_direction)).isSome = true)
    (hwalk : (lookupMovie s.anim
      (walkAnimFor s.current_direction)).isSome = true) :
    (TestPy.animLogic s dx dy speed dist now).2 =
      (if TestPy.FAST_CURSOR_SPEED ≤ speed
       then some (runAnimFor s.current_direction)
       else some (walkAnimFor s.current_direction)) := by
  have hcur : ¬(s.anim.cur_name = some (runAnimFor s.current_direction)) := by
    intro hh
    apply hnr
    rw [hh]
    exact List.mem_map_of_mem some (runAnimFor_mem_running s.current_direction)
  unfold TestPy.animLogic
  by_cases hf : TestPy.FAST_CURSOR_SPEED ≤ speed
  · rw [if_pos ⟨hf, hmv⟩, if_pos ⟨hrun, hcur⟩, if_pos hf]
  · rw [if_neg (fun hh => hf hh.1), if_pos ⟨hmv, by linarith⟩,
      if_pos (by linarith), if_pos ⟨hwalk, hnr⟩, if_neg hf]

theorem mem_some_map {l : List String} {c : String}
    (h : some c ∈ l.map some) : c ∈ l := by
  rcases List.mem_map.1 h with ⟨a, ha, hae⟩
  injection hae with h2
  rw [← h2]
  exact ha

/-- The move-and-animate step on a far-away moved cursor with no special
clip playing: runs exactly above the threshold, walks otherwise. -/
theorem coreMoveAndAnimate_fastwalk (s1 : CoreState) (hist1 : List ℚ)
    (dx dy : ℤ) (avg : ℚ) (inp : TickIn) (c : String)
    (hcn : s1.anim.cur_name = some c)
    (hcr : ¬(c ∈ RUNNING_ANIMS))
    (hlk : s1.movement_locked = false)
    (hld : allClipsLoaded s1.anim)
    (hmv : coreCursorMoved dx dy)
    (hdist : 100 < |(inp.cursor.x : ℚ) - s1.stickman_x|) :
    (coreMoveAndAnimate s1 hist1 dx dy avg inp).2 =
      (if FAST_CURSOR_SPEED ≤ avg
       then some (runAnimFor
         (if s1.stickman_x < (inp.cursor.x : ℚ) then "right" else "left"))
       else some (walkAnimFor
         (if s1.stickman_x < (inp.cursor.x : ℚ) then "right" else "left"))) := by
  have hnr : ¬(({ s1 with cursor_speed_history := hist1 } :
      CoreState).anim.cur_name ∈ RUNNING_ANIMS.map some) := by
    show ¬(s1.anim.cur_name ∈ RUNNING_ANIMS.map some)
    rw [hcn]
    intro hm
    exact hcr (mem_some_map hm)
  have h20 : (20 : ℚ) < |(inp.cursor.x : ℚ) - s1.stickman_x| := by linarith
  have hmp := coreMovePhase_far { s1 with cursor_speed_history := hist1 }
    inp.cursor.x (max 1 inp.elapsed_ms / 1000)
    (|(inp.cursor.x : ℚ) - s1.stickman_x|) h20 hnr
  unfold coreMoveAndAnimate
  rw [coreAnimLogic_fastwalk _ dx dy avg _ inp.now hmv hdist
    (hmp.2.2.1.trans hlk)
    (by rw [hmp.2.1]; exact allClipsLoaded_run hld _)
    (by rw [hmp.2.1]; exact allClipsLoaded_walk hld _)]
  rw [hmp.1]

/-- A full core.py tick on a moved cursor far from the stickman, with
no special clip playing: the tick selects exactly the run clip when the
measured speed reaches the threshold and the walk clip otherwise. -/
theorem coreTick_fastwalk (sc : CoreState) (inp : TickIn) (p : Pos)
    (c : String)
    (hcl : sc.last_cursor_pos = some p)
    (hcc : sc.chrome_state = "none")
    (hlk : sc.movement_locked = false)
    (hcn : sc.anim.cur_name = some c)
    (hcr : ¬(c ∈ RUNNING_ANIMS))
    (hcs : ¬(c ∈ [CLICK_SINGLE, CLICK_DOUBLE, ENJOY, WATCHING]))
    (hld : allClipsLoaded sc.anim)
    (hmoved : 1 < |inp.cursor.x - p.x|)
    (hdist : 100 < |(inp.cursor.x : ℚ) - sc.stickman_x|) :
    (coreUpdateState sc inp).2 =
      (if FAST_CURSOR_SPEED ≤ coreMeasuredSpeed sc inp
       then [runAnimFor
         (if sc.stickman_x < (inp.cursor.x : ℚ) then "right" else "left")]
       else [walkAnimFor
         (if sc.stickman_x < (inp.cursor.x : ℚ) then "right" else "left")]) := by
  have hmv : coreCursorMoved (inp.cursor.x - p.x) (inp.cursor.y - p.y) :=
    Or.inl hmoved
  have hsp := coreStationaryPhase_moved sc inp.now hmv
  have hms : coreMeasuredSpeed sc inp =
      (coreSpeedCalc sc.cursor_speed_history
        (decide (coreCursorMoved (inp.cursor.x - p.x) (inp.cursor.y - p.y)))
        (inp.cursor.x - p.x) inp.elapsed_ms).2 := by
    unfold coreMeasuredSpeed
    rw [hcl]
  unfold coreUpdateState
  split
  · rename_i heq
    rw [hcl] at heq
    exact Option.noConfusion heq
  · rename_i last heq
    rw [hcl] at heq
    injection heq with heq2
    subst heq2
    dsimp only
    split
    · rename_i hg
      rcases hg with ⟨hg1 | hg1, _⟩ <;>
        · rw [hsp.2.1, hcc] at hg1
          exact absurd hg1 (by decide)
    · split
      · rename_i hg
        rcases hg with hg1 | hg1
        · rw [hsp.2.2.2.1, hcn] at hg1
          simp only [List.mem_cons, List.not_mem_nil, or_false] at hg1
          rcases hg1 with h2 | h2 | h2 | h2 <;>
            · injection h2 with h3
              exact absurd (by rw [h3]; decide) hcs
        · rw [hsp.2.2.1, hlk] at hg1
          exact Bool.noConfusion hg1
      · dsimp only
        rw [hsp.1]
        rw [show (none : Option String).toList = [] from rfl, List.nil_append]
        rw [coreMoveAndAnimate_fastwalk _ _ _ _ _ _ c
          (by rw [hsp.2.2.2.1]; exact hcn) hcr
          (by rw [hsp.2.2.1]; exact hlk)
          (by rw [hsp.2.2.2.1]; exact hld) hmv
          (by rw [hsp.2.2.2.2.1]; exact hdist)]
        rw [hsp.2.2.2.2.1, ← hms]
        split <;> rfl

/-- The test.py move-and-animate step on a far-away moved cursor with no
running clip playing: runs exactly above the threshold, walks otherwise. -/
theorem testMoveAndAnimate_fastwalk (s1 : TestPy.TestState) (dx dy : ℤ)
    (speed : ℚ) (inp : TickIn) (c : String)
    (hcn : s1.anim.cur_name = some c)
    (hcr : ¬(c ∈ RUNNING_ANIMS))
    (hld : allClipsLoaded s1.anim)
    (hmv : TestPy.cursorMoved dx dy)
    (hdist : 100 < |(inp.cursor.x : ℚ) - s1.stickman_pos|) :
    (TestPy.moveAndAnimate s1 dx dy speed inp).2 =
      (if TestPy.FAST_CURSOR_SPEED ≤ speed
       then some (runAnimFor
         (if s1.stickman_pos < (inp.cursor.x : ℚ) then "right" else "left"))
       else some (walkAnimFor
         (if s1.stickman_pos < (inp.cursor.x : ℚ) then "right" else "left"))) := by
  have h10 : (10 : ℚ) < |(inp.cursor.x : ℚ) - s1.stickman_pos| := by linarith
  have hmp := testMovePhase_far s1 inp.cursor.x (max 1 inp.elapsed_ms)
    (|(inp.cursor.x : ℚ) - s1.stickman_pos|) h10
  unfold TestPy.moveAndAnimate
  rw [testAnimLogic_fastwalk _ dx dy speed _ inp.now hmv hdist
    (by rw [hmp.2.1, hcn]; intro hm; exact hcr (mem_some_map hm))
    (by rw [hmp.2.1]; exact allClipsLoaded_run hld _)
    (by rw [hmp.2.1]; exact allClipsLoaded_walk hld _)]
  rw [hmp.1]

/-- A full test.py tick on a moved cursor far from the stickman, with no
special clip playing. -/
theorem testTick_fastwalk (st : TestPy.TestState) (inp : TickIn) (p : Pos)
    (c : String)
    (htl : st.last_cursor_pos = some p)
    (htc : st.chrome_state = "none")
    (htn : st.anim.cur_name = some c)
    (hcr : ¬(c ∈ RUNNING_ANIMS))
    (hcs : ¬(c ∈ [CLICK_SINGLE, CLICK_DOUBLE, ENJOY, WATCHING]))
    (hld : allClipsLoaded st.anim)
    (hmoved : 1 < |inp.cursor.x - p.x|)
    (hdist : 100 < |(inp.cursor.x : ℚ) - st.stickman_pos|) :
    (TestPy.updateState st inp).2 =
      (if TestPy.FAST_CURSOR_SPEED ≤ TestPy.measuredSpeed st inp
       then [runAnimFor
         (if st.stickman_pos < (inp.cursor.x : ℚ) then "right" else "left")]
       else [walkAnimFor
         (if st.stickman_pos < (inp.cursor.x : ℚ) then "right" else "left")]) := by
  have hmv : TestPy.cursorMoved (inp.cursor.x - p.x) (inp.cursor.y - p.y) := by
    left
    intro h0
    rw [h0] at hmoved
    norm_num at hmoved
  have hsp := testStationaryPhase_moved st inp.now hmv
  have hms : TestPy.measuredSpeed st inp =
      (|inp.cursor.x - p.x| : ℚ) / (max 1 inp.elapsed_ms / 1000) := by
    unfold TestPy.measuredSpeed
    rw [htl]
  unfold TestPy.updateState
  split
  · rename_i heq
    rw [htl] at heq
    exact Option.noConfusion heq
  · rename_i last heq
    rw [htl] at heq
    injection heq with heq2
    subst heq2
    dsimp only
    split
    · rename_i hg
      rcases hg with hg1 | hg1 <;>
        · rw [hsp.1, htc] at hg1
          exact absurd hg1 (by decide)
    · split
      · rename_i hg1
        rw [hsp.2.1, htn] at hg1
        simp only [List.mem_cons, List.not_mem_nil, or_false] at hg1
        rcases hg1 with h2 | h2 | h2 | h2 <;>
          · injection h2 with h3
            exact absurd (by rw [h3]; decide) hcs
      · dsimp only
        rw [testMoveAndAnimate_fastwalk _ _ _ _ _ c
          (by rw [hsp.2.1]; exact htn) hcr
          (by rw [hsp.2.1]; exact hld) hmv
          (by rw [hsp.2.2.1]; exact hdist)]
        rw [hsp.2.2.1]
        have hE : (|((inp.cursor.x - p.x : ℤ) : ℚ)| / (max 1 inp.elapsed_ms / 1000)) =
            TestPy.measuredSpeed st inp := by
          rw [hms]
          push_cast
          ring_nf
        rw [hE]
        split <;> rfl

/-- The two fast ticks evaluated: both instantaneous speeds are 1200
px/s, yet core.py selects the walk clip (the stickman is only 80 px from
the cursor, below core.py's `distance > 100` gate on the run branch)
while test.py, which has no distance gate on its run branch, selects the
run clip. -/
theorem cexFast_tick_eval :
    coreMeasuredSpeed cexCoreFastState cexFastTick = 1200 ∧
    TestPy.measuredSpeed cexTestFastState cexFastTick = 1200 ∧
    (coreUpdateState cexCoreFastState cexFastTick).2 = [WALK_RIGHT] ∧
    (TestPy.updateState cexTestFastState cexFastTick).2 = [RUN_RIGHT] := by
  refine ⟨?_, ?_, ?_, ?_⟩
  · norm_num [coreMeasuredSpeed, cexCoreFastState, cexCoreWalkState,
      cexFastTick, coreSpeedCalc, coreCursorMoved]
  · norm_num [TestPy.measuredSpeed, cexTestFastState, cexFastTick]
  · norm_num [coreUpdateState, coreMoveAndAnimate, cexCoreFastState,
      cexCoreWalkState, cexFastTick,
      coreSpeedCalc, coreCursorMoved, coreStationaryPhase, start_idle_sequence,
      play_next_idle, reset_idle_sequence, coreMovePhase, coreAnimLogic,
      runAnimFor, walkAnimFor, slowAnimFor, coreSetAnim, set_animation,
      lookupMovie, demoMovieSys, loadedMovies, ALL_CLIPS, IDLE_CLIPS,
      IDLE_CLIP_1, IDLE_CLIP_2, IDLE_CLIP_3, IDLE_CLIP_4, IDLE_CLIP_5,
      WALK_LEFT, WALK_RIGHT, RUN_LEFT, RUN_RIGHT, RUN_IDLE_L, RUN_IDLE_R,
      RUN2SLOW_L, RUN2SLOW_R, CLICK_SINGLE, CLICK_DOUBLE, ENJOY, WATCHING,
      FAST_CURSOR_SPEED, STICKMAN_FOLLOW_SPEED, RUN_IDLE_MAX_TIME,
      List.find?, setRunning, stopCurrent, schedule_next_idle,
      scheduled_idle_timer, IDLE_TIMEOUTS]
    decide
  · norm_num [TestPy.updateState, TestPy.moveAndAnimate, cexTestFastState,
      cexFastTick, TestPy.cursorMoved, TestPy.stationaryPhase,
      TestPy.reset_idle_sequence, TestPy.movePhase, TestPy.animLogic,
      TestPy.setAnim, TestPy.return_to_idle_1, TestPy.play_next_idle,
      TestPy.play_next_idle_step, TestPy.FAST_CURSOR_SPEED,
      TestPy.IDLE_ANIMATION_DELAY,
      runAnimFor, walkAnimFor, slowAnimFor, set_animation,
      lookupMovie, demoMovieSys, loadedMovies, ALL_CLIPS, IDLE_CLIPS,
      IDLE_CLIP_1, IDLE_CLIP_2, IDLE_CLIP_3, IDLE_CLIP_4, IDLE_CLIP_5,
      WALK_LEFT, WALK_RIGHT, RUN_LEFT, RUN_RIGHT, RUN_IDLE_L, RUN_IDLE_R,
      RUN2SLOW_L, RUN2SLOW_R, CLICK_SINGLE, CLICK_DOUBLE, ENJOY, WATCHING,
      RUN_IDLE_MAX_TIME, List.find?, setRunning, stopCurrent]
    decide

/-- The matched slow-walk pair evaluated: the same 60 px / 50 ms tick
gives the same measured speed 1200 in both variants when the speed
history is empty. -/
theorem cexEq_speed_eval :
    coreMeasuredSpeed cexCoreWalkState cexFastTick = 1200 ∧
    TestPy.measuredSpeed cexTestEqState cexFastTick = 1200 := by
  constructor
  · norm_num [coreMeasuredSpeed, cexCoreWalkState, cexFastTick, coreSpeedCalc,
      coreCursorMoved]
  · norm_num [TestPy.measuredSpeed, cexTestEqState, cexTestFastState,
      cexFastTick]

/-- **C2 (counterexample).** A tick on which both variants, started from
field-for-field matching states (same clip, same stickman position 480,
same last cursor position) and both measuring a cursor speed of 1200
px/s — above both thresholds, so the changed constants play no role —
select different clips: core.py walks (its run branch also requires
`distance_to_cursor > 100`, and the stickman is 80 px away) while
test.py runs. -/
theorem claim_C2_counterexample :
    (coreUpdateState cexCoreFastState cexFastTick).2 = [WALK_RIGHT] ∧
    (TestPy.updateState cexTestFastState cexFastTick).2 = [RUN_RIGHT] ∧
    FAST_CURSOR_SPEED ≤ coreMeasuredSpeed cexCoreFastState cexFastTick ∧
    TestPy.FAST_CURSOR_SPEED ≤
      TestPy.measuredSpeed cexTestFastState cexFastTick ∧
    cexCoreFastState.stickman_x = cexTestFastState.stickman_pos ∧
    ¬([WALK_RIGHT] = [RUN_RIGHT]) := by
  refine ⟨cexFast_tick_eval.2.2.1, cexFast_tick_eval.2.2.2, ?_, ?_, rfl,
    by decide⟩
  · rw [cexFast_tick_eval.1]
    norm_num [FAST_CURSOR_SPEED]
  · rw [cexFast_tick_eval.2.1]
    norm_num [TestPy.FAST_CURSOR_SPEED]

/-- **C2 (amended).** The two update loops agree only on a restricted
domain: when both variants start from matching states (same last cursor
position, same current clip — neither a running, slowing, click nor
browser clip —, chrome inactive, core unlocked, all clips loaded, same
stickman position), the cursor moved by core.py's stricter criterion,
the stickman is more than 100 px from the cursor, and the two variants'
threshold tests (400 against the averaged speed in core.py, 720 against
the instantaneous speed in test.py) agree, then both ticks select the
same single clip: the run clip towards the cursor at fast speed, the
walk clip otherwise.  Outside this domain the selections genuinely
diverge (see the counterexample): the difference is structural — core.py
gates its run branch on `distance_to_cursor > 100`, test.py does not —
not merely a changed numeric constant. -/
theorem claim_C2_update_loops_amended (sc : CoreState)
    (st : TestPy.TestState) (inp : TickIn) (p : Pos) (c : String)
    (hcl : sc.last_cursor_pos = some p)
    (htl : st.last_cursor_pos = some p)
    (hcc : sc.chrome_state = "none")
    (htc : st.chrome_state = "none")
    (hlk : sc.movement_locked = false)
    (hcn : sc.anim.cur_name = some c)
    (htn : st.anim.cur_name = some c)
    (hcr : ¬(c ∈ RUNNING_ANIMS))
    (hcs : ¬(c ∈ [CLICK_SINGLE, CLICK_DOUBLE, ENJOY, WATCHING]))
    (hldc : allClipsLoaded sc.anim)
    (hldt : allClipsLoaded st.anim)
    (hpos : sc.stickman_x = st.stickman_pos)
    (hmoved : 1 < |inp.cursor.x - p.x|)
    (hdist : 100 < |(inp.cursor.x : ℚ) - sc.stickman_x|)
    (hspd : FAST_CURSOR_SPEED ≤ coreMeasuredSpeed sc inp ↔
      TestPy.FAST_CURSOR_SPEED ≤ TestPy.measuredSpeed st inp) :
    (coreUpdateState sc inp).2 = (TestPy.updateState st inp).2 ∧
    (coreUpdateState sc inp).2 =
      (if FAST_CURSOR_SPEED ≤ coreMeasuredSpeed sc inp
       then [runAnimFor
         (if sc.stickman_x < (inp.cursor.x : ℚ) then "right" else "left")]
       else [walkAnimFor
         (if sc.stickman_x < (inp.cursor.x : ℚ) then "right" else "left")]) := by
  have hc := coreTick_fastwalk sc inp p c hcl hcc hlk hcn hcr hcs hldc
    hmoved hdist
  have ht := testTick_fastwalk st inp p c htl htc htn hcr hcs hldt hmoved
    (by rw [← hpos]; exact hdist)
  refine ⟨?_, hc⟩
  rw [hc, ht, hpos]
  by_cases hf : FAST_CURSOR_SPEED ≤ coreMeasuredSpeed sc inp
  · rw [if_pos hf, if_pos (hspd.1 hf)]
  · rw [if_neg hf, if_neg (fun hh => hf (hspd.2 hh))]

theorem claim_C2_witness :
    (coreUpdateState cexCoreWalkState cexFastTick).2 =
      (TestPy.updateState cexTestEqState cexFastTick).2 :=
  (claim_C2_update_loops_amended cexCoreWalkState cexTestEqState cexFastTick
    ⟨500, 0⟩ IDLE_CLIP_1 rfl rfl rfl rfl rfl rfl rfl (by decide) (by decide)
    (by decide) (by decide) rfl (by decide)
    (by norm_num [cexCoreWalkState, cexFastTick])
    (iff_of_true
      (by rw [cexEq_speed_eval.1]; norm_num [FAST_CURSOR_SPEED])
      (by rw [cexEq_speed_eval.2]; norm_num [TestPy.FAST_CURSOR_SPEED]))).1

end OrangePixipal
